import Mathlib

/-!
Verification development for the feishu-claudecode message bridge.

Text is embedded as `List Char`; chat/user/message identifiers are embedded
as `Nat` (they are opaque strings in the source).  Collaborator calls
(Feishu sender, executor invocation, timers) are recorded as an effect
trace; the Feishu card payloads are embedded as structured values (JSON
serialization is out of scope).
-/

set_option maxHeartbeats 1000000
set_option maxRecDepth 8000

namespace FeishuCC

/-! ## Card builder (src/feishu/card-builder.ts) -/

inductive CardStatus
  | thinking
  | running
  | complete
  | error
  deriving DecidableEq, Repr

inductive ToolStatus
  | running
  | done
  deriving DecidableEq, Repr

structure ToolCall where
  name : List Char
  detail : List Char
  status : ToolStatus
  deriving DecidableEq, Repr

structure CardState where
  status : CardStatus
  userPrompt : List Char
  responseText : List Char
  toolCalls : List ToolCall
  costUsd : Option Rat
  durationMs : Option Nat
  errorMessage : Option (List Char)
  deriving DecidableEq, Repr

/-- `STATUS_CONFIG` from the source: color, title and icon per status. -/
def statusConfig : CardStatus → (List Char × List Char × List Char)
  | .thinking => (("blue" : String).data, ("Thinking..." : String).data, ("🔵" : String).data)
  | .running => (("blue" : String).data, ("Running..." : String).data, ("🔵" : String).data)
  | .complete => (("green" : String).data, ("Complete" : String).data, ("🟢" : String).data)
  | .error => (("red" : String).data, ("Error" : String).data, ("🔴" : String).data)

def MAX_CONTENT_LENGTH : Nat := 50000

/-- The elision marker inserted by `truncateContent`. -/
def truncMarker : List Char := ("\n\n... (content truncated) ...\n\n" : String).data

/-- `truncateContent` from the source: text at most the budget is returned
unchanged; longer text becomes `head ++ marker ++ tail` where each slice has
length `⌊budget/2⌋ - 50`.  (`text.slice(0, half)` is `take half`,
`text.slice(-half)` is `drop (length - half)`.) -/
def truncateContent (text : List Char) : List Char :=
  if text.length ≤ MAX_CONTENT_LENGTH then text
  else
    let half := MAX_CONTENT_LENGTH / 2 - 50
    text.take half ++ truncMarker ++ text.drop (text.length - half)

/-- One rendered line of the tool list: `{icon} **{name}** {detail}`. -/
def fmtToolLine (t : ToolCall) : List Char :=
  (if t.status = .running then ("⏳" : String).data else ("✅" : String).data)
    ++ (" **" : String).data ++ t.name ++ ("** " : String).data ++ t.detail

/-- The hidden-tool-calls summary line: `_... ({n} earlier tool calls hidden)_`. -/
def summaryLine (n : Nat) : List Char :=
  ("_... (" : String).data ++ (Nat.repr n).data ++ (" earlier tool calls hidden)_" : String).data

/-- The tool-list lines assembled inside `buildCard`: the last 20 entries
(`slice(-20)`), preceded by a summary line when more than 20 exist. -/
def toolLines (tcs : List ToolCall) : List (List Char) :=
  let recent := tcs.drop (tcs.length - 20)
  let lines := recent.map fmtToolLine
  if tcs.length > 20 then summaryLine (tcs.length - 20) :: lines else lines

/-- `lines.join('\n')`. -/
def joinLines (ls : List (List Char)) : List Char :=
  (ls.intersperse ("\n" : String).data).flatten

/-- A card element; the stats note carries the raw duration/cost it renders
(number formatting is presentation detail). -/
inductive CardElement
  | markdown (content : List Char)
  | hr
  | note (durationMs : Option Nat) (costUsd : Option Rat)
  deriving DecidableEq, Repr

structure FeishuCard where
  color : List Char
  title : List Char
  elements : List CardElement
  deriving DecidableEq, Repr

/-- `buildCard` from the source: tool-call section (when non-empty), response
text (truncated) or thinking placeholder, error message, stats note for
terminal status. -/
def buildCard (state : CardState) : FeishuCard :=
  let cfg := statusConfig state.status
  let toolElems : List CardElement :=
    if state.toolCalls ≠ [] then
      [.markdown (joinLines (toolLines state.toolCalls)), .hr]
    else []
  let respElems : List CardElement :=
    if state.responseText ≠ [] then
      [.markdown (truncateContent state.responseText)]
    else if state.status = .thinking then
      [.markdown ("_Claude is thinking..._" : String).data]
    else []
  let errElems : List CardElement :=
    match state.errorMessage with
    | some msg => [.markdown (("**Error:** " : String).data ++ msg)]
    | none => []
  let statElems : List CardElement :=
    if state.status = .complete ∨ state.status = .error then
      if state.durationMs.isSome ∨ state.costUsd.isSome then
        [.note state.durationMs state.costUsd]
      else []
    else []
  { color := cfg.1
    title := cfg.2.2 ++ (" " : String).data ++ cfg.2.1
    elements := toolElems ++ respElems ++ errElems ++ statElems }

/-- `buildTextCard` from the source. -/
def buildTextCard (title content color : List Char) : FeishuCard :=
  { color := color, title := title, elements := [.markdown content] }

/-- `buildHelpCard` from the source (content abbreviated to its joined text). -/
def buildHelpCard : FeishuCard :=
  { color := ("blue" : String).data
    title := ("📖 Help" : String).data
    elements := [.markdown (String.data
      ("**Available Commands:**\n`/cd /path/to/project` - Set working directory\n`/reset` - Clear session, start fresh (keeps working directory)\n`/show-system-prompt` - Display current system prompt\n`/set-system-prompt <text>` - Set custom system prompt\n`/reset-system-prompt` - Reset system prompt to default\n`/stop` - Abort current running task\n`/status` - Show current session and directory info\n`/send-file /path/to/file` - Send a file to this chat\n`/help` - Show this help message\n\n**Usage:**\nSend any text message to start a conversation with Claude Code.\nClaude will execute in the working directory you set with `/cd`.\nEach user has an independent session and working directory."))] }

/-- `buildStatusCard` from the source (its markdown body carried as the
structured data it renders). -/
def buildStatusCard (userId : Nat) (workingDirectory : Option (List Char))
    (sessionId : Option (List Char)) (isRunning : Bool) : FeishuCard :=
  { color := ("blue" : String).data
    title := ("📊 Status" : String).data
    elements := [.markdown (
      ("**User:** " : String).data ++ (Nat.repr userId).data
        ++ ("\n**Working Directory:** " : String).data
        ++ (match workingDirectory with
            | some wd => wd
            | none => ("_Not set (use /cd to set)_" : String).data)
        ++ ("\n**Session:** " : String).data
        ++ (match sessionId with
            | some sid => sid.take 8 ++ ("..." : String).data
            | none => ("_None_" : String).data)
        ++ ("\n**Running:** " : String).data
        ++ (if isRunning then ("Yes ⏳" : String).data else ("No" : String).data))] }

/-- `buildContinueCard` from the source. -/
def buildContinueCard (currentTurns : Nat) : FeishuCard :=
  { color := ("orange" : String).data
    title := ("⚠️ Max Turns Reached" : String).data
    elements := [.markdown (
      ("Claude has reached the maximum turn limit (" : String).data
        ++ (Nat.repr currentTurns).data
        ++ (" turns).\n\nDo you want to continue execution?\n\nReply with **yes** or **no**." : String).data)] }

/-! ## Text helpers (`.trim()`, `.toLowerCase()`, `.startsWith('/')`,
`.includes(...)`, `.split(/\s+/)`, `.join(...)`) -/

/-- `String.prototype.trim`. -/
def trim (s : List Char) : List Char :=
  ((s.dropWhile Char.isWhitespace).reverse.dropWhile Char.isWhitespace).reverse

/-- `String.prototype.toLowerCase` (ASCII-faithful). -/
def toLowerList (s : List Char) : List Char := s.map Char.toLower

/-- `text.startsWith('/')`. -/
def startsWithSlash : List Char → Bool
  | c :: _ => c = '/'
  | [] => false

/-- `hay.includes(needle)`. -/
def containsSub (needle : List Char) : List Char → Bool
  | [] => needle.isEmpty
  | c :: rest => needle.isPrefixOf (c :: rest) || containsSub needle rest

/-- Worker for `split(/\s+/)`: a whitespace run ends the current token and is
skipped whole, so leading/trailing whitespace yields empty boundary tokens,
exactly as in JavaScript. -/
def splitWsGo : List Char → List Char → List (List Char)
  | [], acc => [acc.reverse]
  | c :: rest, acc =>
    if c.isWhitespace then
      acc.reverse :: splitWsGo (rest.dropWhile Char.isWhitespace) []
    else
      splitWsGo rest (c :: acc)
termination_by s _ => s.length
decreasing_by
  · simp only [List.length_cons]
    exact Nat.lt_succ_of_le (List.dropWhile_suffix _).length_le
  · simp only [List.length_cons]
    exact Nat.lt_succ_self _

/-- `text.split(/\s+/)`. -/
def splitWs (s : List Char) : List (List Char) := splitWsGo s []

/-- `parts.join(' ')`. -/
def joinSpace (ls : List (List Char)) : List Char := (ls.intersperse [' ']).flatten

/-! ## Stream aggregator

`src/claude/stream-processor.ts` is not part of the provided sources; the
aggregator is modelled from the spec (§4.2 Stream Aggregator). -/

/-- Modelled from the spec: the backend event kinds consumed by the Stream
Aggregator (§6): *init* with a resumption token, *assistant text delta*,
*tool-start*/*tool-end*, a terminal *result*, and unrecognized events. -/
inductive StreamEvent
  | init (sessionId : List Char)
  | assistantText (delta : List Char)
  | toolStart (name detail : List Char)
  | toolEnd (name detail : List Char)
  | result (isError : Bool) (costUsd : Option Rat) (durationMs : Option Nat)
      (errorMessage : Option (List Char))
  | unknown
  deriving DecidableEq, Repr

/-- Modelled from the spec: the Stream Aggregator's state (`StreamProcessor`,
missing from src/): a captured resumption token plus the single mutable
display snapshot it folds events into. -/
structure ProcState where
  sessionId : Option (List Char)
  snapshot : CardState
  deriving DecidableEq, Repr

/-- Modelled from the spec: a fresh aggregator for a prompt
(`new StreamProcessor(displayPrompt)`): empty snapshot in *thinking* state. -/
def initProc (displayPrompt : List Char) : ProcState :=
  { sessionId := none
    snapshot :=
      { status := .thinking, userPrompt := displayPrompt, responseText := []
        toolCalls := [], costUsd := none, durationMs := none, errorMessage := none } }

/-- Updates the most recent running entry with the given name to done. -/
def markDoneFirst (name detail : List Char) : List ToolCall → List ToolCall
  | [] => []
  | t :: rest =>
    if t.name = name ∧ t.status = ToolStatus.running then
      { name := t.name, detail := detail, status := .done } :: rest
    else t :: markDoneFirst name detail rest

/-- Modelled from the spec: *tool invocation end* "updates the matching
entry's status to done and detail"; the latest running entry with the name
is matched. -/
def markToolDone (name detail : List Char) (l : List ToolCall) : List ToolCall :=
  (markDoneFirst name detail l.reverse).reverse

/-- Modelled from the spec (§4.2): fold one backend event into the snapshot;
malformed/unrecognized events are a no-op. -/
def processMessage (p : ProcState) : StreamEvent → ProcState
  | .init sid => { p with sessionId := some sid }
  | .assistantText delta =>
    { p with snapshot :=
        { p.snapshot with status := .running
                          responseText := p.snapshot.responseText ++ delta } }
  | .toolStart name detail =>
    { p with snapshot :=
        { p.snapshot with status := .running
                          toolCalls := p.snapshot.toolCalls ++ [⟨name, detail, .running⟩] } }
  | .toolEnd name detail =>
    { p with snapshot :=
        { p.snapshot with status := .running
                          toolCalls := markToolDone name detail p.snapshot.toolCalls } }
  | .result isErr cost dur errMsg =>
    { p with snapshot :=
        { p.snapshot with status := if isErr then .error else .complete
                          costUsd := cost, durationMs := dur, errorMessage := errMsg } }
  | .unknown => p

/-- The turn-limit condition test from `executeQuery`/`continueExecution`:
`lastState.status === 'error' && lastState.errorMessage?.includes('error_max_turns')`. -/
def isMaxTurns (cs : CardState) : Bool :=
  cs.status = CardStatus.error &&
    (match cs.errorMessage with
     | some m => containsSub ("error_max_turns" : String).data m
     | none => false)

/-! ## Session store

`src/claude/session-manager.ts` is not part of the provided sources; the
session store is modelled from the spec (§4.1 Session Store; lazy expiry is
elided — no claim touches it). -/

/-- Modelled from the spec: per-conversation session state (`UserSession`,
missing from src/): working-context reference, resumption token, optional
system-prompt override. -/
structure UserSession where
  workingDirectory : Option (List Char)
  sessionId : Option (List Char)
  systemPrompt : Option (List Char)
  deriving DecidableEq, Repr

structure Config where
  systemPrompt : Option (List Char)
  maxTurns : Nat
  defaultWorkingDirectory : Option (List Char)
  deriving DecidableEq, Repr

/-! ## Association-list maps (the `Map` keyed by chatId) -/

def lookupA {α : Type} (k : Nat) : List (Nat × α) → Option α
  | [] => none
  | (k', v) :: rest => if k' = k then some v else lookupA k rest

def insertA {α : Type} (k : Nat) (v : α) : List (Nat × α) → List (Nat × α)
  | [] => [(k, v)]
  | (k', v') :: rest => if k' = k then (k, v) :: rest else (k', v') :: insertA k v rest

def eraseA {α : Type} (k : Nat) : List (Nat × α) → List (Nat × α)
  | [] => []
  | (k', v') :: rest => if k' = k then rest else (k', v') :: eraseA k rest

/-! ## Bridge state (src/bridge/message-bridge.ts) -/

/-- The `waitingForContinue` record stored on a suspended task (the resolver
is represented by the suspended-task semantics in `executeQuery` /
`continueExecution`). -/
structure WaitingRecord where
  messageId : Nat
  lastState : CardState
  processor : ProcState
  displayPrompt : List Char
  imagePath : Option (List Char)
  deriving DecidableEq, Repr

/-- One `RunningTask` entry of the `runningTasks` map (the abort signal is an
environment input, see `StreamRound.abortAt`). -/
structure RunningTask where
  startTime : Nat
  waitingForContinue : Option WaitingRecord
  deriving DecidableEq, Repr

structure BridgeState where
  runningTasks : List (Nat × RunningTask)
  sessions : List (Nat × UserSession)
  deriving DecidableEq, Repr

structure Msg where
  userId : Nat
  chatId : Nat
  messageId : Nat
  text : List Char
  imageKey : Option (List Char)
  deriving DecidableEq, Repr

/-- Observable collaborator calls, recorded in order.  Card payloads are the
structured values the sender serializes; `sendOutputImages` summarizes the
file-system-scanning delivery helper (out of core scope). -/
inductive Effect
  | sendCard (chatId : Nat) (card : FeishuCard)
  | sendText (chatId : Nat) (text : List Char)
  | sendFile (chatId : Nat) (path : List Char)
  | updateCard (messageId : Nat) (card : FeishuCard)
  | scheduleUpdate (messageId : Nat) (card : FeishuCard)
  | flushUpdates
  | invokeExecutor (prompt cwd : List Char) (sessionId systemPrompt : Option (List Char))
  | setTimeoutEff
  | clearTimeoutEff
  | resolveContinue (b : Bool)
  | abortTask (chatId : Nat)
  | downloadImage (messageId : Nat) (imageKey : List Char)
  | sendOutputImages (chatId : Nat)
  | setSessionId (chatId : Nat) (sid : List Char)
  deriving DecidableEq, Repr

/-- Modelled from the spec: `sessionManager.getSession` is get-or-create —
an absent session yields a default one (default working directory from
configuration). -/
def defaultSession (cfg : Config) : UserSession :=
  { workingDirectory := cfg.defaultWorkingDirectory, sessionId := none, systemPrompt := none }

/-- Modelled from the spec: `get-or-create(conversationId)`. -/
def getSession (cfg : Config) (st : BridgeState) (chatId : Nat) : UserSession × BridgeState :=
  match lookupA chatId st.sessions with
  | some s => (s, st)
  | none =>
    let s := defaultSession cfg
    (s, { st with sessions := insertA chatId s st.sessions })

/-- Modelled from the spec: `sessionManager.hasWorkingDirectory`. -/
def hasWorkingDirectory (cfg : Config) (st : BridgeState) (chatId : Nat) : Bool :=
  (match lookupA chatId st.sessions with
   | some s => s.workingDirectory
   | none => cfg.defaultWorkingDirectory).isSome

/-! ## Environment inputs (stream contents, abort timing, transport results) -/

/-- One execution-stream round as supplied by the environment:
the events the backend stream yields, whether pulling past the last event
raises an exception, the iteration index (if any) at which the cancellation
signal is observed, and the user's eventual yes/no continuation reply for
this round's turn-limit handshake. -/
structure StreamRound where
  events : List StreamEvent
  throwsAtEnd : Option (List Char)
  abortAt : Option Nat
  continueReply : Bool
  deriving Repr

structure QueryEnv where
  now : Nat
  initialMessageId : Option Nat
  imageDownloadOk : Bool
  rounds : List StreamRound
  deriving Repr

/-- The default round used when the environment supplies no further rounds
(never reached in the theorems below). -/
def defaultRound : StreamRound :=
  { events := [], throwsAtEnd := none, abortAt := none, continueReply := false }

/-! ## The stream-consumption loop (`for await (const message of stream)`) -/

/-- One iteration of the loop body (after the abort check): fold the event,
record a `setSessionId` when a fresh resumption token is discovered, and
schedule a throttled card update for non-terminal states.  Returns
`(aggregator, setSessionId effects, current session id, schedule effects)`. -/
def loopStep (chatId messageId : Nat) (p : ProcState) (sess : Option (List Char))
    (e : StreamEvent) : ProcState × List Effect × Option (List Char) × List Effect :=
  let p' := processMessage p e
  let sessStep : List Effect × Option (List Char) :=
    match p'.sessionId with
    | some sid =>
      if sess ≠ some sid then ([Effect.setSessionId chatId sid], some sid) else ([], sess)
    | none => ([], sess)
  let schedEffs : List Effect :=
    if p'.snapshot.status = CardStatus.complete ∨ p'.snapshot.status = CardStatus.error then []
    else [Effect.scheduleUpdate messageId (buildCard p'.snapshot)]
  (p', sessStep.1, sessStep.2, schedEffs)

/-- The loop of `executeQuery`/`continueExecution`
(`for await (const message of stream)`): the abort signal is checked before
processing each event (the `abortAt` index counts down; `some 0` means the
signal is observed now and the loop breaks).  Returns the aggregator state,
the last folded `lastState`, the current session id, and the effects in
processing order. -/
def runLoop (chatId messageId : Nat) :
    Option Nat → List StreamEvent → ProcState → Option (List Char) → CardState →
    ProcState × CardState × Option (List Char) × List Effect
  | _, [], p, sess, last => (p, last, sess, [])
  | some 0, _ :: _, p, sess, last => (p, last, sess, [])
  | none, e :: rest, p, sess, last =>
    let s := loopStep chatId messageId p sess e
    let r := runLoop chatId messageId none rest s.1 s.2.2.1 s.1.snapshot
    (r.1, r.2.1, r.2.2.1, s.2.1 ++ s.2.2.2 ++ r.2.2.2)
  | some (a + 1), e :: rest, p, sess, last =>
    let s := loopStep chatId messageId p sess e
    let r := runLoop chatId messageId (some a) rest s.1 s.2.2.1 s.1.snapshot
    (r.1, r.2.1, r.2.2.1, s.2.1 ++ s.2.2.2 ++ r.2.2.2)

/-- Did `abortAt` break the loop before the stream was exhausted?  (If so,
the end-of-stream exception, if any, is never observed.) -/
def loopBroke (abortAt : Option Nat) (len : Nat) : Bool :=
  match abortAt with
  | some a => decide (a < len)
  | none => false

def contPrompt : List Char := ("Please continue with the previous task." : String).data

def internalErrorCard : FeishuCard :=
  buildTextCard ("❌ Internal Error" : String).data
    ("Command processing error. Please try again." : String).data ("red" : String).data

/-! ## continueExecution / executeQuery -/

/-- The continuation-boundary card state pushed at the top of
`continueExecution`: a *running* snapshot carrying the reused aggregator's
accumulated response text (`processor.getResponseText()`) and tool calls
(`processor.getToolCalls()`). -/
def contStateOf (proc : ProcState) (displayPrompt : List Char) : CardState :=
  { status := .running, userPrompt := displayPrompt
    responseText := proc.snapshot.responseText
    toolCalls := proc.snapshot.toolCalls
    costUsd := none, durationMs := none, errorMessage := none }

/-- The prelude of `continueExecution` (up to the executor invocation):
clears `waitingForContinue` on the conversation's task entry and pushes the
*running* continuation card built from the reused aggregator's accumulated
response text and tool calls.  Returns `none` when the task entry is gone. -/
def contPrelude (chatId messageId : Nat) (proc : ProcState) (displayPrompt : List Char)
    (st : BridgeState) : Option (RunningTask × BridgeState × CardState × List Effect) :=
  match lookupA chatId st.runningTasks with
  | none => none
  | some task =>
    let task1 := { task with waitingForContinue := none }
    let st1 := { st with runningTasks := insertA chatId task1 st.runningTasks }
    let contState := contStateOf proc displayPrompt
    some (task1, st1, contState, [Effect.updateCard messageId (buildCard contState)])

/-- `continueExecution`: re-opens an execution stream with the fixed
continuation prompt and the session's resumption token, reusing the same
aggregator state; recurses on further affirmative turn-limit rounds; on any
exit path the `finally` block deletes the conversation's task entry. -/
def continueExecution (cfg : Config) (chatId messageId : Nat) (sess : UserSession)
    (proc : ProcState) (displayPrompt : List Char) (imagePath : Option (List Char))
    (st : BridgeState) : List StreamRound → BridgeState × List Effect
  | [] =>
    match contPrelude chatId messageId proc displayPrompt st with
    | none => (st, [])
    | some pre => (pre.2.1, pre.2.2.2)
  | r :: rest =>
    match contPrelude chatId messageId proc displayPrompt st with
    | none => (st, [])
    | some pre =>
      let task1 := pre.1
      let st1 := pre.2.1
      let contState := pre.2.2.1
      let preEffs := pre.2.2.2
      let invokeEff := Effect.invokeExecutor contPrompt (sess.workingDirectory.getD [])
        sess.sessionId sess.systemPrompt
      let lr := runLoop chatId messageId r.abortAt r.events proc sess.sessionId contState
      let procF := lr.1
      let lastState := lr.2.1
      let sessF := lr.2.2.1
      let loopEffs := lr.2.2.2
      let sess' := { sess with sessionId := sessF }
      let st2 :=
        if sessF = sess.sessionId then st1
        else { st1 with sessions := insertA chatId sess' st1.sessions }
      if r.throwsAtEnd.isSome ∧ loopBroke r.abortAt r.events.length = false then
        let errorState : CardState :=
          { status := .error, userPrompt := displayPrompt
            responseText := lastState.responseText, toolCalls := lastState.toolCalls
            costUsd := none, durationMs := none
            errorMessage := some (r.throwsAtEnd.getD []) }
        ({ st2 with runningTasks := eraseA chatId st2.runningTasks },
          preEffs ++ [invokeEff] ++ loopEffs ++
            [.flushUpdates, .updateCard messageId (buildCard errorState)])
      else
        if isMaxTurns lastState then
          let contCard := buildContinueCard cfg.maxTurns
          let wrec : WaitingRecord := ⟨messageId, lastState, procF, displayPrompt, imagePath⟩
          let taskW := { task1 with waitingForContinue := some wrec }
          let stW := { st2 with runningTasks := insertA chatId taskW st2.runningTasks }
          if r.continueReply then
            let cont := continueExecution cfg chatId messageId sess' procF displayPrompt
              imagePath stW rest
            (cont.1,
              preEffs ++ [invokeEff] ++ loopEffs ++
                [.flushUpdates, .updateCard messageId contCard] ++ cont.2)
          else
            ({ stW with runningTasks := eraseA chatId stW.runningTasks },
              preEffs ++ [invokeEff] ++ loopEffs ++
                [.flushUpdates, .updateCard messageId contCard,
                 .updateCard messageId (buildCard lastState), .sendOutputImages chatId])
        else
          ({ st2 with runningTasks := eraseA chatId st2.runningTasks },
            preEffs ++ [invokeEff] ++ loopEffs ++
              [.flushUpdates, .updateCard messageId (buildCard lastState),
               .sendOutputImages chatId])

/-- `executeQuery`: the command-leak guard, task registration, timeout arming,
image download, initial card creation (aborting the attempt when it fails),
the stream loop, the turn-limit handshake, and the `finally` cleanup. -/
def executeQuery (cfg : Config) (st : BridgeState) (msg : Msg) (env : QueryEnv) :
    BridgeState × List Effect :=
  let text := trim msg.text
  if startsWithSlash text then
    (st, [.sendCard msg.chatId internalErrorCard])
  else
    let gs := getSession cfg st msg.chatId
    let session := gs.1
    let st0 := gs.2
    let cwd := session.workingDirectory.getD []
    let freshTask : RunningTask := { startTime := env.now, waitingForContinue := none }
    let st1 := { st0 with runningTasks := insertA msg.chatId freshTask st0.runningTasks }
    let imgStep : List Effect × List Char × Option (List Char) :=
      match msg.imageKey with
      | some key =>
        let ipath := ("/tmp/feishu-claudecode/" : String).data ++ key ++ (".png" : String).data
        ([Effect.downloadImage msg.messageId key],
         (if env.imageDownloadOk then
            text ++ ("\n\n[Image saved at: " : String).data ++ ipath
              ++ ("]\nPlease use the Read tool to read and analyze this image file." : String).data
          else
            text ++ ("\n\n(Note: Failed to download the image from Feishu)" : String).data),
         some ipath)
      | none => ([], text, none)
    let prompt := imgStep.2.1
    let imagePath := imgStep.2.2
    let displayPrompt :=
      match msg.imageKey with
      | some _ => ("🖼️ " : String).data ++ text
      | none => text
    let processor := initProc displayPrompt
    let initialState : CardState :=
      { status := .thinking, userPrompt := displayPrompt, responseText := []
        toolCalls := [], costUsd := none, durationMs := none, errorMessage := none }
    let preEffs := [Effect.setTimeoutEff] ++ imgStep.1
      ++ [Effect.sendCard msg.chatId (buildCard initialState)]
    match env.initialMessageId with
    | none =>
      ({ st1 with runningTasks := eraseA msg.chatId st1.runningTasks },
        preEffs ++ [.clearTimeoutEff])
    | some messageId =>
      let hd :=
        match env.rounds with
        | [] => (defaultRound, ([] : List StreamRound))
        | r :: rest => (r, rest)
      let r := hd.1
      let rest := hd.2
      let invokeEff := Effect.invokeExecutor prompt cwd session.sessionId session.systemPrompt
      let lr := runLoop msg.chatId messageId r.abortAt r.events processor session.sessionId initialState
      let procF := lr.1
      let lastState := lr.2.1
      let sessF := lr.2.2.1
      let loopEffs := lr.2.2.2
      let sess' := { session with sessionId := sessF }
      let st2 :=
        if sessF = session.sessionId then st1
        else { st1 with sessions := insertA msg.chatId sess' st1.sessions }
      if r.throwsAtEnd.isSome ∧ loopBroke r.abortAt r.events.length = false then
        let errorState : CardState :=
          { status := .error, userPrompt := displayPrompt
            responseText := lastState.responseText, toolCalls := lastState.toolCalls
            costUsd := none, durationMs := none
            errorMessage := some (r.throwsAtEnd.getD []) }
        ({ st2 with runningTasks := eraseA msg.chatId st2.runningTasks },
          preEffs ++ [invokeEff] ++ loopEffs ++
            [.flushUpdates, .updateCard messageId (buildCard errorState), .clearTimeoutEff])
      else
        if isMaxTurns lastState then
          let contCard := buildContinueCard cfg.maxTurns
          let wrec : WaitingRecord := ⟨messageId, lastState, procF, displayPrompt, imagePath⟩
          let taskW : RunningTask := { startTime := env.now, waitingForContinue := some wrec }
          let stW := { st2 with runningTasks := insertA msg.chatId taskW st2.runningTasks }
          if r.continueReply then
            let cont := continueExecution cfg msg.chatId messageId sess' procF displayPrompt
              imagePath stW rest
            ({ cont.1 with runningTasks := eraseA msg.chatId cont.1.runningTasks },
              preEffs ++ [invokeEff] ++ loopEffs ++
                [.flushUpdates, .updateCard messageId contCard] ++ cont.2 ++ [.clearTimeoutEff])
          else
            ({ stW with runningTasks := eraseA msg.chatId stW.runningTasks },
              preEffs ++ [invokeEff] ++ loopEffs ++
                [.flushUpdates, .updateCard messageId contCard,
                 .updateCard messageId (buildCard lastState), .sendOutputImages msg.chatId,
                 .clearTimeoutEff])
        else
          ({ st2 with runningTasks := eraseA msg.chatId st2.runningTasks },
            preEffs ++ [invokeEff] ++ loopEffs ++
              [.flushUpdates, .updateCard messageId (buildCard lastState),
               .sendOutputImages msg.chatId, .clearTimeoutEff])

/-! ## handleCommand / handleMessage -/

/-- Environment inputs for command handling: the resolved filesystem path for
the argument (`path.resolve` over the `~`-expanded argument depends on the
process environment) and the `fs.statSync` results. -/
structure CommandEnv where
  resolvedPath : List Char
  statIsDirectory : Option Bool
  statFile : Option (Bool × Nat)
  sendFileOk : Bool
  deriving Repr

def usageCard (content : List Char) : FeishuCard :=
  buildTextCard ("⚠️ Usage" : String).data content ("orange" : String).data

/-- The cases of the `switch (cmd.toLowerCase())` dispatch. -/
inductive CmdKind
  | help | cd | reset | resetSystemPrompt | showSystemPrompt | setSystemPrompt
  | stop | status | sendFileCmd | unknown
  deriving DecidableEq, Repr

/-- The `switch (cmd.toLowerCase())` scrutinee classification. -/
def parseCmd (lc : List Char) : CmdKind :=
  if lc = ("/help" : String).data then .help
  else if lc = ("/cd" : String).data then .cd
  else if lc = ("/reset" : String).data then .reset
  else if lc = ("/reset-system-prompt" : String).data then .resetSystemPrompt
  else if lc = ("/show-system-prompt" : String).data then .showSystemPrompt
  else if lc = ("/set-system-prompt" : String).data then .setSystemPrompt
  else if lc = ("/stop" : String).data then .stop
  else if lc = ("/status" : String).data then .status
  else if lc = ("/send-file" : String).data then .sendFileCmd
  else .unknown

/-- One arm of the `switch` in `handleCommand`, given the raw first token
`cmd` and the joined-and-trimmed remaining tokens `arg`. -/
def handleCommandCase (cfg : Config) (st : BridgeState) (msg : Msg) (env : CommandEnv)
    (cmd arg : List Char) : CmdKind → BridgeState × List Effect
  | .help =>
    (st, [.sendCard msg.chatId buildHelpCard])
  | .cd =>
    if arg = [] then
      (st, [.sendCard msg.chatId (usageCard ("`/cd /path/to/project`" : String).data)])
    else
      let rp := env.resolvedPath
      match env.statIsDirectory with
      | none =>
        (st, [.sendCard msg.chatId (buildTextCard ("❌ Error" : String).data
          (("Directory not found: `" : String).data ++ rp ++ ("`" : String).data)
          ("red" : String).data)])
      | some false =>
        (st, [.sendCard msg.chatId (buildTextCard ("❌ Error" : String).data
          (("Not a directory: `" : String).data ++ rp ++ ("`" : String).data)
          ("red" : String).data)])
      | some true =>
        let gs := getSession cfg st msg.chatId
        let s' := { gs.1 with workingDirectory := some rp, sessionId := none }
        ({ gs.2 with sessions := insertA msg.chatId s' gs.2.sessions },
          [.sendCard msg.chatId (buildTextCard ("✅ Working Directory Set" : String).data
            (("`" : String).data ++ rp ++ ("`" : String).data) ("green" : String).data)])
  | .reset =>
    let gs := getSession cfg st msg.chatId
    let s' := { gs.1 with sessionId := none, systemPrompt := none }
    ({ gs.2 with sessions := insertA msg.chatId s' gs.2.sessions },
      [.sendCard msg.chatId (buildTextCard ("✅ Session Reset" : String).data
        ("Conversation cleared. Working directory preserved." : String).data
        ("green" : String).data)])
  | .resetSystemPrompt =>
    let gs := getSession cfg st msg.chatId
    let s' := { gs.1 with systemPrompt := none }
    ({ gs.2 with sessions := insertA msg.chatId s' gs.2.sessions },
      [.sendCard msg.chatId (buildTextCard ("✅ System Prompt Reset" : String).data
        ("System prompt reset to default from configuration." : String).data
        ("green" : String).data)])
  | .showSystemPrompt =>
    let gs := getSession cfg st msg.chatId
    let effective :=
      match gs.1.systemPrompt with
      | some p => some p
      | none => cfg.systemPrompt
    match effective with
    | none =>
      (gs.2, [.sendCard msg.chatId (buildTextCard ("ℹ️ System Prompt" : String).data
        ("No custom system prompt is set. Using Claude's default behavior." : String).data
        ("blue" : String).data)])
    | some p =>
      if p = [] then
        (gs.2, [.sendCard msg.chatId (buildTextCard ("ℹ️ System Prompt" : String).data
          ("No custom system prompt is set. Using Claude's default behavior." : String).data
          ("blue" : String).data)])
      else
        let truncated :=
          if p.length > 2000 then p.take 2000 ++ ("...(truncated)" : String).data else p
        let source :=
          if gs.1.systemPrompt.isSome then ("**Custom**" : String).data
          else ("**Default (from config)**" : String).data
        (gs.2, [.sendCard msg.chatId (buildTextCard ("ℹ️ Current System Prompt" : String).data
          (source ++ ("\n\n```\n" : String).data ++ truncated ++ ("\n```" : String).data)
          ("blue" : String).data)])
  | .setSystemPrompt =>
    if arg = [] then
      (st, [.sendCard msg.chatId (usageCard
        ("`/set-system-prompt <your custom prompt>`\n\nExample:\n`/set-system-prompt You are a helpful coding assistant. Always explain your reasoning.`" : String).data)])
    else
      let gs := getSession cfg st msg.chatId
      let s' := { gs.1 with systemPrompt := some arg }
      let truncated := if arg.length > 200 then arg.take 200 ++ ("..." : String).data else arg
      ({ gs.2 with sessions := insertA msg.chatId s' gs.2.sessions },
        [.sendCard msg.chatId (buildTextCard ("✅ System Prompt Set" : String).data
          (("Custom system prompt applied:\n```\n" : String).data ++ truncated
            ++ ("\n```" : String).data) ("green" : String).data)])
  | .stop =>
    match lookupA msg.chatId st.runningTasks with
    | some _ =>
      ({ st with runningTasks := eraseA msg.chatId st.runningTasks },
        [.abortTask msg.chatId,
         .sendCard msg.chatId (buildTextCard ("🛑 Stopped" : String).data
           ("Current task has been aborted." : String).data ("orange" : String).data)])
    | none =>
      (st, [.sendCard msg.chatId (buildTextCard ("ℹ️ No Running Task" : String).data
        ("There is no task to stop." : String).data ("blue" : String).data)])
  | .status =>
    let gs := getSession cfg st msg.chatId
    let isRunning := (lookupA msg.chatId st.runningTasks).isSome
    (gs.2, [.sendCard msg.chatId
      (buildStatusCard msg.userId gs.1.workingDirectory gs.1.sessionId isRunning)])
  | .sendFileCmd =>
    if arg = [] then
      (st, [.sendCard msg.chatId (usageCard ("`/send-file /path/to/file`" : String).data)])
    else
      let rp := env.resolvedPath
      match env.statFile with
      | none =>
        (st, [.sendCard msg.chatId (buildTextCard ("❌ Error" : String).data
          (("File not found: `" : String).data ++ rp ++ ("`" : String).data)
          ("red" : String).data)])
      | some stat =>
        if stat.1 = false then
          (st, [.sendCard msg.chatId (buildTextCard ("❌ Error" : String).data
            (("Not a file: `" : String).data ++ rp ++ ("`" : String).data)
            ("red" : String).data)])
        else if stat.2 > 30 * 1024 * 1024 then
          (st, [.sendCard msg.chatId (buildTextCard ("❌ Error" : String).data
            ("File too large (max 30MB)" : String).data ("red" : String).data)])
        else if env.sendFileOk then
          (st, [.sendFile msg.chatId rp,
            .sendCard msg.chatId (buildTextCard ("✅ File Sent" : String).data
              (("`" : String).data ++ rp ++ ("`" : String).data) ("green" : String).data)])
        else
          (st, [.sendFile msg.chatId rp,
            .sendCard msg.chatId (buildTextCard ("❌ Error" : String).data
              ("Failed to send file. Check logs for details." : String).data
              ("red" : String).data)])
  | .unknown =>
    (st, [.sendCard msg.chatId (buildTextCard ("❓ Unknown Command" : String).data
      (("Unknown command: `" : String).data ++ cmd
        ++ ("`\nUse `/help` for available commands." : String).data)
      ("orange" : String).data)])

/-- `handleCommand`: splits the raw (untrimmed) message text on whitespace
runs and dispatches on the lowercased first token. -/
def handleCommand (cfg : Config) (st : BridgeState) (msg : Msg) (env : CommandEnv) :
    BridgeState × List Effect :=
  let parts := splitWs msg.text
  let cmd := parts.headD []
  let arg := trim (joinSpace parts.tail)
  handleCommandCase cfg st msg env cmd arg (parseCmd (toLowerList cmd))

structure HandleEnv where
  fileTransferOk : Bool
  cmd : CommandEnv
  query : QueryEnv
  deriving Repr

def invalidReplyCard : FeishuCard :=
  buildTextCard ("⚠️ Invalid Response" : String).data
    ("Please reply with **yes** or **no**." : String).data ("orange" : String).data

def busyCard : FeishuCard :=
  buildTextCard ("⏳ Task In Progress" : String).data
    ("You have a running task. Use `/stop` to abort it, or wait for it to finish." : String).data
    ("orange" : String).data

def noWdCard : FeishuCard :=
  buildTextCard ("⚠️ Working Directory Not Set" : String).data
    ("Please set a working directory first:\n`/cd /path/to/your/project`" : String).data
    ("orange" : String).data

def testFilePath : List Char :=
  ("/home/admin/feishu-claudecode/test-file-transfer.txt" : String).data

/-- The part of `handleMessage` after the continuation-reply check: the
file-transfer test, command dispatch, the working-directory check, the busy
check, and finally `executeQuery`. -/
def handleMessageTail (cfg : Config) (st : BridgeState) (msg : Msg) (env : HandleEnv) :
    BridgeState × List Effect :=
  let text := trim msg.text
  if toLowerList text = ("file transfer test" : String).data then
    (st, [Effect.sendFile msg.chatId testFilePath] ++
      (if env.fileTransferOk then
        [Effect.sendText msg.chatId ("✅ File transfer test successful!" : String).data]
       else
        [Effect.sendText msg.chatId ("❌ File transfer test failed." : String).data]))
  else if startsWithSlash text then
    handleCommand cfg st msg env.cmd
  else if ¬ hasWorkingDirectory cfg st msg.chatId then
    (st, [.sendCard msg.chatId noWdCard])
  else if (lookupA msg.chatId st.runningTasks).isSome then
    (st, [.sendCard msg.chatId busyCard])
  else
    executeQuery cfg st msg env.query

/-- `handleMessage`: a pending continuation reply is classified first; a
resolution hands control to the suspended task (whose behaviour is
`executeQuery`/`continueExecution` under `QueryEnv.rounds`), recorded here
as a `resolveContinue` effect. -/
def handleMessage (cfg : Config) (st : BridgeState) (msg : Msg) (env : HandleEnv) :
    BridgeState × List Effect :=
  let text := trim msg.text
  match lookupA msg.chatId st.runningTasks with
  | some task =>
    match task.waitingForContinue with
    | some _ =>
      let response := toLowerList text
      if response = ("yes" : String).data ∨ response = ("y" : String).data then
        (st, [.resolveContinue true])
      else if response = ("no" : String).data ∨ response = ("n" : String).data then
        (st, [.resolveContinue false])
      else
        (st, [.sendCard msg.chatId invalidReplyCard])
    | none => handleMessageTail cfg st msg env
  | none => handleMessageTail cfg st msg env

/-! ## Trace observations and round classifications used by the theorems -/

/-- A push of a terminal (complete/error) snapshot to the UI surface:
`buildCard` renders terminal statuses with a green/red header and no other
pushed card is green or red. -/
def isTerminalPush : Effect → Bool
  | .updateCard _ c =>
    c.color = ("green" : String).data || c.color = ("red" : String).data
  | _ => false

def countTerminalPushes (effs : List Effect) : Nat := (effs.filter isTerminalPush).length

/-- An executor invocation carrying the fixed continuation prompt. -/
def isContInvoke : Effect → Bool
  | .invokeExecutor p _ _ _ => p = contPrompt
  | _ => false

def countContInvokes (effs : List Effect) : Nat := (effs.filter isContInvoke).length

def statusTerminal (s : CardStatus) : Bool :=
  s = CardStatus.complete || s = CardStatus.error

def isResultEvent : StreamEvent → Bool
  | .result .. => true
  | _ => false

/-- The backend interface contract (§6): a normally-ending stream's last
event is the terminal *result* event. -/
def roundEndsWithResult (r : StreamRound) : Bool :=
  match r.events.getLast? with
  | some e => isResultEvent e
  | none => false

/-- A round in which the stream is consumed to its end (no cancellation cut)
and ends with a result event or an exception. -/
def roundOk (r : StreamRound) : Bool :=
  r.abortAt = none && (r.throwsAtEnd.isSome || roundEndsWithResult r)

/-- Does this round's stream end in the turn-limit condition? -/
def roundMaxTurns (r : StreamRound) : Bool :=
  r.throwsAtEnd = none &&
    (match r.events.getLast? with
     | some (.result true _ _ (some e)) => containsSub ("error_max_turns" : String).data e
     | _ => false)

/-- A well-formed round chain: every consumed round is `roundOk`, and the
chain keeps supplying rounds as long as a turn-limit round is answered
affirmatively. -/
def okChain : List StreamRound → Bool
  | [] => false
  | r :: rest =>
    roundOk r && (if roundMaxTurns r && r.continueReply then okChain rest else true)

/-! ## Concrete scenario values (for witnesses and counterexamples) -/

def cfgEx : Config := { systemPrompt := none, maxTurns := 50, defaultWorkingDirectory := none }

def sessW : UserSession :=
  { workingDirectory := some ("/w" : String).data, sessionId := none, systemPrompt := none }

def taskIdle : RunningTask := { startTime := 0, waitingForContinue := none }

def waitEx : WaitingRecord :=
  { messageId := 1
    lastState :=
      { status := .error, userPrompt := ("hi" : String).data, responseText := []
        toolCalls := [], costUsd := none, durationMs := none
        errorMessage := some ("error_max_turns" : String).data }
    processor := initProc ("hi" : String).data
    displayPrompt := ("hi" : String).data
    imagePath := none }

def taskWaiting : RunningTask := { startTime := 0, waitingForContinue := some waitEx }

/-- A state with an occupied (running, not suspended) slot for chat 0. -/
def stBusy : BridgeState := { runningTasks := [(0, taskIdle)], sessions := [(0, sessW)] }

/-- A state with a suspended task (awaiting a continuation reply) for chat 0. -/
def stSuspended : BridgeState :=
  { runningTasks := [(0, taskWaiting)], sessions := [(0, sessW)] }

/-- A state with a free slot for chat 0. -/
def stIdle : BridgeState := { runningTasks := [], sessions := [(0, sessW)] }

def cmdEnvEx : CommandEnv :=
  { resolvedPath := [], statIsDirectory := none, statFile := none, sendFileOk := true }

def queryEnvEx : QueryEnv :=
  { now := 0, initialMessageId := some 1, imageDownloadOk := true, rounds := [] }

def handleEnvEx : HandleEnv :=
  { fileTransferOk := true, cmd := cmdEnvEx, query := queryEnvEx }

def mkMsg (text : List Char) : Msg :=
  { userId := 1, chatId := 0, messageId := 9, text := text, imageKey := none }

/-- A snapshot with `n` identical finished tool calls. -/
def mkToolState (n : Nat) : CardState :=
  { status := .running, userPrompt := [], responseText := []
    toolCalls := List.replicate n ⟨("t" : String).data, ("d" : String).data, .done⟩
    costUsd := none, durationMs := none, errorMessage := none }

/-- A turn-limit round answered *yes*. -/
def rMax : StreamRound :=
  { events := [.result true none none (some ("error_max_turns" : String).data)]
    throwsAtEnd := none, abortAt := none, continueReply := true }

/-- A normal completion round. -/
def rDone : StreamRound :=
  { events := [.result false none (some 4200) none]
    throwsAtEnd := none, abortAt := none, continueReply := false }

/-- A round cut by cancellation before any event is processed (the backend
stream does contain a result event, but the abort is observed first). -/
def rAbort : StreamRound :=
  { events := [.result false none none none]
    throwsAtEnd := none, abortAt := some 0, continueReply := false }

def envAbort : QueryEnv :=
  { now := 0, initialMessageId := some 1, imageDownloadOk := true, rounds := [rAbort] }

/-- The environment with `n + 1` affirmative turn-limit rounds followed by a
normal completion round. -/
def envMaxN (n : Nat) : QueryEnv :=
  { now := 0, initialMessageId := some 1, imageDownloadOk := true
    rounds := List.replicate (n + 1) rMax ++ [rDone] }

/-! ## Theorems -/

/-! ### Helper lemmas about the association-list maps -/

theorem lookupA_insertA_self {α : Type} (k : Nat) (v : α) (l : List (Nat × α)) :
    lookupA k (insertA k v l) = some v := by
  induction l with
  | nil => simp [insertA, lookupA]
  | cons p rest ih =>
    obtain ⟨k', v'⟩ := p
    by_cases h : k' = k
    · simp [insertA, h, lookupA]
    · simp [insertA, h, lookupA, ih]

theorem eraseA_insertA_absent {α : Type} (k : Nat) (v : α) (l : List (Nat × α))
    (h : lookupA k l = none) : eraseA k (insertA k v l) = l := by
  induction l with
  | nil => simp [insertA, eraseA]
  | cons p rest ih =>
    obtain ⟨k', v'⟩ := p
    by_cases hk : k' = k
    · rw [lookupA, if_pos hk] at h
      exact absurd h (by simp)
    · rw [lookupA, if_neg hk] at h
      rw [insertA, if_neg hk, eraseA, if_neg hk, ih h]

theorem eraseA_sublist {α : Type} (k : Nat) (l : List (Nat × α)) :
    (eraseA k l).Sublist l := by
  induction l with
  | nil => simp [eraseA]
  | cons p rest ih =>
    obtain ⟨k', v'⟩ := p
    by_cases hk : k' = k
    · rw [eraseA, if_pos hk]
      exact List.sublist_cons_self _ _
    · rw [eraseA, if_neg hk]
      exact ih.cons₂ _

theorem getSession_runningTasks (cfg : Config) (st : BridgeState) (c : Nat) :
    (getSession cfg st c).2.runningTasks = st.runningTasks := by
  unfold getSession
  split <;> rfl

/-! ### Helper lemmas about text classification -/

theorem slash_not_reply {t : List Char} (h : startsWithSlash t = true) :
    toLowerList t ≠ ("yes" : String).data ∧ toLowerList t ≠ ("y" : String).data ∧
    toLowerList t ≠ ("no" : String).data ∧ toLowerList t ≠ ("n" : String).data ∧
    toLowerList t ≠ ("file transfer test" : String).data := by
  cases t with
  | nil => simp [startsWithSlash] at h
  | cons c rest =>
    simp only [startsWithSlash, decide_eq_true_eq] at h
    subst h
    refine ⟨?_, ?_, ?_, ?_, ?_⟩ <;>
      · intro he
        simp only [toLowerList, List.map_cons] at he
        have := List.head_eq_of_cons_eq he
        exact absurd this (by decide)

/-! ### Helper lemmas about handleCommand -/

theorem handleCommandCase_no_invoke (cfg : Config) (st : BridgeState) (msg : Msg)
    (cenv : CommandEnv) (cmd arg : List Char) (k : CmdKind)
    (p c : List Char) (sid sp : Option (List Char)) :
    Effect.invokeExecutor p c sid sp ∉ (handleCommandCase cfg st msg cenv cmd arg k).2 := by
  cases k
  all_goals (simp only [handleCommandCase]; repeat' split)
  all_goals simp

theorem handleCommand_no_invoke (cfg : Config) (st : BridgeState) (msg : Msg)
    (cenv : CommandEnv) (p c : List Char) (sid sp : Option (List Char)) :
    Effect.invokeExecutor p c sid sp ∉ (handleCommand cfg st msg cenv).2 :=
  handleCommandCase_no_invoke cfg st msg cenv _ _ _ p c sid sp

theorem handleCommandCase_tasks (cfg : Config) (st : BridgeState) (msg : Msg)
    (cenv : CommandEnv) (cmd arg : List Char) (k : CmdKind) :
    (handleCommandCase cfg st msg cenv cmd arg k).1.runningTasks = st.runningTasks ∨
    (handleCommandCase cfg st msg cenv cmd arg k).1.runningTasks
      = eraseA msg.chatId st.runningTasks := by
  cases k
  all_goals (simp only [handleCommandCase]; repeat' split)
  all_goals first
    | (left; simp [getSession_runningTasks]; done)
    | (right; rfl)

theorem handleCommand_tasks (cfg : Config) (st : BridgeState) (msg : Msg)
    (cenv : CommandEnv) :
    (handleCommand cfg st msg cenv).1.runningTasks = st.runningTasks ∨
    (handleCommand cfg st msg cenv).1.runningTasks = eraseA msg.chatId st.runningTasks :=
  handleCommandCase_tasks cfg st msg cenv _ _ _

theorem handleCommand_tasks_sublist (cfg : Config) (st : BridgeState) (msg : Msg)
    (cenv : CommandEnv) :
    (handleCommand cfg st msg cenv).1.runningTasks.Sublist st.runningTasks := by
  rcases handleCommand_tasks cfg st msg cenv with h | h
  · rw [h]
  · rw [h]
    exact eraseA_sublist _ _

/-- **C4** — For every response text of length at most 50,000 the rendering
function returns the text unchanged; for longer text the rendered text has
length at most 50,000 plus the elision-marker length, starts with a prefix
(head) of the original text and ends with a suffix (tail) of it. -/
theorem truncation_spec (s : List Char) :
    (s.length ≤ MAX_CONTENT_LENGTH → truncateContent s = s) ∧
    (s.length > MAX_CONTENT_LENGTH →
      (truncateContent s).length ≤ MAX_CONTENT_LENGTH + truncMarker.length ∧
      s.take (MAX_CONTENT_LENGTH / 2 - 50) <+: truncateContent s ∧
      s.drop (s.length - (MAX_CONTENT_LENGTH / 2 - 50)) <:+ truncateContent s) := by
  constructor
  · intro h
    unfold truncateContent
    rw [if_pos h]
  · intro h
    have hnot : ¬ s.length ≤ MAX_CONTENT_LENGTH := by omega
    refine ⟨?_, ?_, ?_⟩
    · have h1 : (s.take (MAX_CONTENT_LENGTH / 2 - 50)).length = MAX_CONTENT_LENGTH / 2 - 50 := by
        rw [List.length_take]
        unfold MAX_CONTENT_LENGTH at *
        omega
      have h2 : (s.drop (s.length - (MAX_CONTENT_LENGTH / 2 - 50))).length
          = MAX_CONTENT_LENGTH / 2 - 50 := by
        rw [List.length_drop]
        unfold MAX_CONTENT_LENGTH at *
        omega
      have hm : truncMarker.length = 31 := rfl
      simp only [truncateContent, if_neg hnot, List.length_append, h1, h2, hm]
      unfold MAX_CONTENT_LENGTH
      omega
    · exact ⟨truncMarker ++ s.drop (s.length - (MAX_CONTENT_LENGTH / 2 - 50)),
        by simp [truncateContent, if_neg hnot, List.append_assoc]⟩
    · exact ⟨s.take (MAX_CONTENT_LENGTH / 2 - 50) ++ truncMarker,
        by simp [truncateContent, if_neg hnot, List.append_assoc]⟩

/-- Witness for C4 at a short text and a 50,001-character text. -/
theorem truncation_spec_witness :
    truncateContent ("abc" : String).data = ("abc" : String).data ∧
    ((List.replicate 50001 'a').length > MAX_CONTENT_LENGTH ∧
      (truncateContent (List.replicate 50001 'a')).length
        ≤ MAX_CONTENT_LENGTH + truncMarker.length) := by
  refine ⟨(truncation_spec _).1 (by decide), ?_⟩
  have h : (List.replicate 50001 'a').length > MAX_CONTENT_LENGTH := by
    rw [List.length_replicate]
    unfold MAX_CONTENT_LENGTH
    omega
  exact ⟨h, ((truncation_spec _).2 h).1⟩

/-- **C5** — With more than 20 tool invocations the rendered list is exactly
one summary line stating how many earlier calls are hidden followed by
exactly the last 20 entries; with 1–20 invocations all entries are shown and
no summary line appears; rendering is a pure function of the snapshot (the
accumulated list itself is untouched). -/
theorem toolList_windowing (cs : CardState) :
    (cs.toolCalls.length > 20 →
      toolLines cs.toolCalls =
        summaryLine (cs.toolCalls.length - 20) ::
          (cs.toolCalls.drop (cs.toolCalls.length - 20)).map fmtToolLine ∧
      (cs.toolCalls.drop (cs.toolCalls.length - 20)).length = 20 ∧
      cs.toolCalls.drop (cs.toolCalls.length - 20) <:+ cs.toolCalls ∧
      ∃ restEls, (buildCard cs).elements =
        CardElement.markdown (joinLines (toolLines cs.toolCalls)) :: CardElement.hr :: restEls) ∧
    (1 ≤ cs.toolCalls.length → cs.toolCalls.length ≤ 20 →
      toolLines cs.toolCalls = cs.toolCalls.map fmtToolLine ∧
      ∃ restEls, (buildCard cs).elements =
        CardElement.markdown (joinLines (toolLines cs.toolCalls)) :: CardElement.hr :: restEls) := by
  constructor
  · intro h
    have hne : cs.toolCalls ≠ [] := by
      intro he
      rw [he] at h
      simp at h
    refine ⟨by simp [toolLines, h], ?_, List.drop_suffix _ _, ?_⟩
    · rw [List.length_drop]
      omega
    · exact ⟨_, by unfold buildCard; rw [if_pos hne]; rfl⟩
  · intro h1 h20
    have hne : cs.toolCalls ≠ [] := by
      intro he
      rw [he] at h1
      simp at h1
    have hz : cs.toolCalls.length - 20 = 0 := by omega
    refine ⟨?_, ?_⟩
    · simp [toolLines, hz, Nat.not_lt.mpr h20]
    · exact ⟨_, by unfold buildCard; rw [if_pos hne]; rfl⟩

/-- Witness for C5 at 25 and at 3 tool invocations. -/
theorem toolList_windowing_witness :
    ((mkToolState 25).toolCalls.length > 20 ∧
      toolLines (mkToolState 25).toolCalls =
        summaryLine 5 :: ((mkToolState 25).toolCalls.drop 5).map fmtToolLine) ∧
    (1 ≤ (mkToolState 3).toolCalls.length ∧ (mkToolState 3).toolCalls.length ≤ 20 ∧
      toolLines (mkToolState 3).toolCalls = (mkToolState 3).toolCalls.map fmtToolLine) := by
  constructor
  · have h : (mkToolState 25).toolCalls.length > 20 := by decide
    exact ⟨h, ((toolList_windowing (mkToolState 25)).1 h).1⟩
  · have h1 : 1 ≤ (mkToolState 3).toolCalls.length := by decide
    have h2 : (mkToolState 3).toolCalls.length ≤ 20 := by decide
    exact ⟨h1, h2, ((toolList_windowing (mkToolState 3)).2 h1 h2).1⟩

/-! ### Helper lemmas about the stream loop -/

theorem loopStep_not_terminal (c m : Nat) (p : ProcState) (sess : Option (List Char))
    (e : StreamEvent) (x : Effect)
    (hx : x ∈ (loopStep c m p sess e).2.1 ++ (loopStep c m p sess e).2.2.2) :
    isTerminalPush x = false := by
  unfold loopStep at hx
  simp only [List.mem_append] at hx
  rcases hx with hx | hx
  · split at hx
    · split at hx
      · simp at hx
        rw [hx]
        rfl
      · simp at hx
    · simp at hx
  · split at hx
    · simp at hx
    · simp at hx
      rw [hx]
      rfl

theorem runLoop_effects_not_terminal (c m : Nat) (evs : List StreamEvent) :
    ∀ ab p sess last e, e ∈ (runLoop c m ab evs p sess last).2.2.2 →
      isTerminalPush e = false := by
  induction evs with
  | nil =>
    intro ab p sess last e he
    cases ab with
    | none => simp [runLoop] at he
    | some a => simp [runLoop] at he
  | cons ev rest ih =>
    intro ab p sess last e he
    match ab with
    | none =>
      rw [runLoop] at he
      simp only [List.mem_append] at he
      rcases he with (he | he) | he
      · exact loopStep_not_terminal c m p sess ev e (List.mem_append_left _ he)
      · exact loopStep_not_terminal c m p sess ev e (List.mem_append_right _ he)
      · exact ih _ _ _ _ e he
    | some 0 =>
      rw [runLoop] at he
      simp at he
    | some (a + 1) =>
      rw [runLoop] at he
      simp only [List.mem_append] at he
      rcases he with (he | he) | he
      · exact loopStep_not_terminal c m p sess ev e (List.mem_append_left _ he)
      · exact loopStep_not_terminal c m p sess ev e (List.mem_append_right _ he)
      · exact ih _ _ _ _ e he

theorem runLoop_no_terminal (c m : Nat) (ab : Option Nat) (evs : List StreamEvent)
    (p : ProcState) (sess : Option (List Char)) (last : CardState) :
    countTerminalPushes (runLoop c m ab evs p sess last).2.2.2 = 0 := by
  unfold countTerminalPushes
  rw [List.length_eq_zero, List.filter_eq_nil_iff]
  intro a ha
  rw [runLoop_effects_not_terminal c m evs ab p sess last a ha]
  simp

/-- Observing the abort signal at index `a` is the same as consuming only
the first `a` events: no event at or past the cut is processed. -/
theorem runLoop_abort (c m : Nat) (evs : List StreamEvent) :
    ∀ a p sess last,
      runLoop c m (some a) evs p sess last = runLoop c m none (evs.take a) p sess last := by
  induction evs with
  | nil =>
    intro a p sess last
    cases a <;> simp [runLoop]
  | cons ev rest ih =>
    intro a p sess last
    cases a with
    | zero => simp [runLoop]
    | succ a' =>
      rw [List.take_succ_cons]
      simp only [runLoop]
      rw [ih a']

theorem runLoop_proc (c m : Nat) (evs : List StreamEvent) :
    ∀ p sess last, (runLoop c m none evs p sess last).1 = evs.foldl processMessage p := by
  induction evs with
  | nil =>
    intro p sess last
    simp [runLoop]
  | cons ev rest ih =>
    intro p sess last
    simp only [runLoop, List.foldl_cons]
    exact ih _ _ _

theorem runLoop_last (c m : Nat) (evs : List StreamEvent) (hne : evs ≠ []) :
    ∀ p sess last,
      (runLoop c m none evs p sess last).2.1 = (evs.foldl processMessage p).snapshot := by
  induction evs with
  | nil => exact absurd rfl hne
  | cons ev rest ih =>
    intro p sess last
    simp only [runLoop, List.foldl_cons]
    by_cases hr : rest = []
    · subst hr
      simp [runLoop, loopStep]
    · exact ih hr _ _ _

/-! ### Helper lemmas about folds, cards and push counting -/


theorem foldl_result_status (l : List StreamEvent) (p : ProcState) (b : Bool)
    (c : Option Rat) (d : Option Nat) (e : Option (List Char)) :
    ((l ++ [StreamEvent.result b c d e]).foldl processMessage p).snapshot.status
        = (if b then CardStatus.error else CardStatus.complete) ∧
    ((l ++ [StreamEvent.result b c d e]).foldl processMessage p).snapshot.errorMessage = e := by
  rw [List.foldl_append]
  simp [processMessage]

theorem endsWithResult_decomp (r : StreamRound) (h : roundEndsWithResult r = true) :
    ∃ l b c d e, r.events = l ++ [StreamEvent.result b c d e] := by
  unfold roundEndsWithResult at h
  cases hl : r.events.getLast? with
  | none => rw [hl] at h; simp at h
  | some ev =>
    rw [hl] at h
    have hdec := @List.dropLast_append_getLast? _ r.events ev (by simp [hl])
    cases ev with
    | result b c d e => exact ⟨r.events.dropLast, b, c, d, e, hdec.symm⟩
    | init sid => simp [isResultEvent] at h
    | assistantText t => simp [isResultEvent] at h
    | toolStart n dt => simp [isResultEvent] at h
    | toolEnd n dt => simp [isResultEvent] at h
    | unknown => simp [isResultEvent] at h

theorem isTerminalPush_buildCard (m : Nat) (cs : CardState) :
    isTerminalPush (.updateCard m (buildCard cs)) = statusTerminal cs.status := by
  have hcol : (buildCard cs).color = (statusConfig cs.status).1 := rfl
  simp only [isTerminalPush, statusTerminal, hcol]
  cases cs.status <;> rfl

theorem isTerminalPush_contCard (m n : Nat) :
    isTerminalPush (.updateCard m (buildContinueCard n)) = false := rfl

theorem isMaxTurns_status {cs : CardState} (h : isMaxTurns cs = true) :
    cs.status = CardStatus.error := by
  unfold isMaxTurns at h
  obtain ⟨h1, _⟩ := Bool.and_eq_true_iff.mp h
  exact of_decide_eq_true h1

theorem countTP_append (a b : List Effect) :
    countTerminalPushes (a ++ b) = countTerminalPushes a + countTerminalPushes b := by
  simp [countTerminalPushes, List.filter_append]

theorem countTP_cons (x : Effect) (xs : List Effect) :
    countTerminalPushes (x :: xs)
      = (if isTerminalPush x then 1 else 0) + countTerminalPushes xs := by
  unfold countTerminalPushes
  rw [List.filter_cons]
  split <;> simp_all <;> omega

theorem countCI_append (a b : List Effect) :
    countContInvokes (a ++ b) = countContInvokes a + countContInvokes b := by
  simp [countContInvokes, List.filter_append]

theorem countCI_cons (x : Effect) (xs : List Effect) :
    countContInvokes (x :: xs)
      = (if isContInvoke x then 1 else 0) + countContInvokes xs := by
  unfold countContInvokes
  rw [List.filter_cons]
  split <;> simp_all <;> omega

theorem countTP_nil : countTerminalPushes [] = 0 := rfl

theorem contPrelude_some (chatId messageId : Nat) (proc : ProcState) (dp : List Char)
    (st : BridgeState) (task : RunningTask)
    (htask : lookupA chatId st.runningTasks = some task) :
    contPrelude chatId messageId proc dp st =
      some ({ task with waitingForContinue := none },
        { st with runningTasks :=
            insertA chatId { task with waitingForContinue := none } st.runningTasks },
        contStateOf proc dp,
        [Effect.updateCard messageId (buildCard (contStateOf proc dp))]) := by
  simp [contPrelude, htask]

theorem cont_terminal_once (cfg : Config) (chatId messageId : Nat) :
    ∀ (rounds : List StreamRound), okChain rounds = true →
    ∀ (sess : UserSession) (proc : ProcState) (dp : List Char)
      (ip : Option (List Char)) (st : BridgeState) (task : RunningTask),
      lookupA chatId st.runningTasks = some task →
      countTerminalPushes
        (continueExecution cfg chatId messageId sess proc dp ip st rounds).2 = 1 := by
  intro rounds
  induction rounds with
  | nil =>
    intro h
    simp [okChain] at h
  | cons r rest ih =>
    intro h sess proc dp ip st task htask
    unfold okChain at h
    obtain ⟨hok, hcont⟩ := Bool.and_eq_true_iff.mp h
    unfold roundOk at hok
    obtain ⟨habd, hendd⟩ := Bool.and_eq_true_iff.mp hok
    have hab : r.abortAt = none := of_decide_eq_true habd
    have hbroke : loopBroke r.abortAt r.events.length = false := by
      simp [loopBroke, hab]
    simp only [continueExecution, contPrelude_some chatId messageId proc dp st task htask]
    cases hthrow : r.throwsAtEnd with
    | some err =>
      rw [if_pos ⟨rfl, hbroke⟩]
      simp only [countTP_append, countTP_cons, countTP_nil, runLoop_no_terminal,
        isTerminalPush]
      simp [buildCard, buildContinueCard, statusConfig, contStateOf]
    | none =>
      rw [if_neg (by simp)]
      have hend : roundEndsWithResult r = true := by
        rw [hthrow] at hendd
        simpa using hendd
      obtain ⟨l, b, c, d, e, hev⟩ := endsWithResult_decomp r hend
      have hne : r.events ≠ [] := by rw [hev]; simp
      rw [hab, runLoop_last chatId messageId r.events hne proc sess.sessionId
        (contStateOf proc dp)]
      have hst : (r.events.foldl processMessage proc).snapshot.status
          = (if b then CardStatus.error else CardStatus.complete) := by
        rw [hev]; exact (foldl_result_status l proc b c d e).1
      have herr : (r.events.foldl processMessage proc).snapshot.errorMessage = e := by
        rw [hev]; exact (foldl_result_status l proc b c d e).2
      cases hb : b with
      | false =>
        rw [hb] at hst
        simp at hst
        have hmax : isMaxTurns ((r.events.foldl processMessage proc).snapshot) = false := by
          simp [isMaxTurns, hst]
        rw [if_neg (by simp [hmax])]
        simp only [countTP_append, countTP_cons, countTP_nil, runLoop_no_terminal,
          isTerminalPush]
        simp [buildCard, buildContinueCard, statusConfig, contStateOf, hst]
      | true =>
        rw [hb] at hst hev
        simp at hst
        cases he : e with
        | none =>
          rw [he] at herr hev
          have hmax : isMaxTurns ((r.events.foldl processMessage proc).snapshot) = false := by
            simp [isMaxTurns, hst, herr]
          rw [if_neg (by simp [hmax])]
          simp only [countTP_append, countTP_cons, countTP_nil, runLoop_no_terminal,
            isTerminalPush]
          simp [buildCard, buildContinueCard, statusConfig, contStateOf, hst]
        | some mmsg =>
          rw [he] at herr hev
          cases hcs : containsSub ("error_max_turns" : String).data mmsg with
          | false =>
            have hmax : isMaxTurns ((r.events.foldl processMessage proc).snapshot) = false := by
              simp [isMaxTurns, hst, herr, hcs]
            rw [if_neg (by simp [hmax])]
            simp only [countTP_append, countTP_cons, countTP_nil, runLoop_no_terminal,
              isTerminalPush]
            simp [buildCard, buildContinueCard, statusConfig, contStateOf, hst]
          | true =>
            have hmax : isMaxTurns ((r.events.foldl processMessage proc).snapshot) = true := by
              simp [isMaxTurns, hst, herr, hcs]
            rw [if_pos (by simp [hmax])]
            have hrmt : roundMaxTurns r = true := by
              unfold roundMaxTurns
              rw [hthrow, hev, List.getLast?_concat]
              simp [hcs]
            cases hrep : r.continueReply with
            | false =>
              rw [if_neg (by simp)]
              simp only [countTP_append, countTP_cons, countTP_nil, runLoop_no_terminal,
                isTerminalPush]
              simp [buildCard, buildContinueCard, statusConfig, contStateOf, hst]
            | true =>
              rw [if_pos rfl]
              have hrest : okChain rest = true := by
                rw [hrmt, hrep] at hcont
                simpa using hcont
              simp only [countTP_append, countTP_cons, countTP_nil, runLoop_no_terminal,
                isTerminalPush]
              rw [ih hrest _ _ _ _ _ _ (lookupA_insertA_self _ _ _)]
              simp [buildCard, buildContinueCard, statusConfig, contStateOf]


/-- **C3 (amended)** — For every task attempt whose stream rounds are each
consumed to the end and finish with the backend's terminal result event or
an exception (no cancellation cut), a terminal snapshot with status
complete or error is pushed to the UI surface exactly once, across all
continuation rounds; when cancellation stops consumption before the result
event, the single final push instead carries the last accumulated
(possibly non-terminal) snapshot — see the counterexample. -/
theorem terminal_push_exactly_once (cfg : Config) (st : BridgeState) (msg : Msg)
    (env : QueryEnv) (s : UserSession) (mid : Nat)
    (hs : startsWithSlash (trim msg.text) = false)
    (himg : msg.imageKey = none)
    (hsess : lookupA msg.chatId st.sessions = some s)
    (hmid : env.initialMessageId = some mid)
    (hok : okChain env.rounds = true) :
    countTerminalPushes (executeQuery cfg st msg env).2 = 1 := by
  cases hrounds : env.rounds with
  | nil =>
    rw [hrounds] at hok
    simp [okChain] at hok
  | cons r rest =>
    rw [hrounds] at hok
    unfold okChain at hok
    obtain ⟨hokr, hcont⟩ := Bool.and_eq_true_iff.mp hok
    unfold roundOk at hokr
    obtain ⟨habd, hendd⟩ := Bool.and_eq_true_iff.mp hokr
    have hab : r.abortAt = none := of_decide_eq_true habd
    have hbroke : loopBroke r.abortAt r.events.length = false := by
      simp [loopBroke, hab]
    simp only [executeQuery, hmid, hrounds, himg, getSession, hsess]
    rw [if_neg (by simp [hs])]
    cases hthrow : r.throwsAtEnd with
    | some err =>
      rw [if_pos ⟨rfl, hbroke⟩]
      simp only [countTP_append, countTP_cons, countTP_nil, runLoop_no_terminal,
        isTerminalPush]
      simp [buildCard, statusConfig]
    | none =>
      rw [if_neg (by simp)]
      have hend : roundEndsWithResult r = true := by
        rw [hthrow] at hendd
        simpa using hendd
      obtain ⟨l, b, c, d, e, hev⟩ := endsWithResult_decomp r hend
      have hne : r.events ≠ [] := by rw [hev]; simp
      rw [hab, runLoop_last msg.chatId mid r.events hne _ s.sessionId _]
      have hst : (r.events.foldl processMessage (initProc (trim msg.text))).snapshot.status
          = (if b then CardStatus.error else CardStatus.complete) := by
        rw [hev]; exact (foldl_result_status l _ b c d e).1
      have herr : (r.events.foldl processMessage (initProc (trim msg.text))).snapshot.errorMessage
          = e := by
        rw [hev]; exact (foldl_result_status l _ b c d e).2
      cases hb : b with
      | false =>
        rw [hb] at hst
        simp at hst
        have hmax : isMaxTurns
            ((r.events.foldl processMessage (initProc (trim msg.text))).snapshot) = false := by
          simp [isMaxTurns, hst]
        rw [if_neg (by simp [hmax])]
        simp only [countTP_append, countTP_cons, countTP_nil, runLoop_no_terminal,
          isTerminalPush]
        simp [buildCard, statusConfig, hst]
      | true =>
        rw [hb] at hst hev
        simp at hst
        cases he : e with
        | none =>
          rw [he] at herr hev
          have hmax : isMaxTurns
              ((r.events.foldl processMessage (initProc (trim msg.text))).snapshot) = false := by
            simp [isMaxTurns, hst, herr]
          rw [if_neg (by simp [hmax])]
          simp only [countTP_append, countTP_cons, countTP_nil, runLoop_no_terminal,
            isTerminalPush]
          simp [buildCard, statusConfig, hst]
        | some mmsg =>
          rw [he] at herr hev
          cases hcs : containsSub ("error_max_turns" : String).data mmsg with
          | false =>
            have hmax : isMaxTurns
                ((r.events.foldl processMessage (initProc (trim msg.text))).snapshot) = false := by
              simp [isMaxTurns, hst, herr, hcs]
            rw [if_neg (by simp [hmax])]
            simp only [countTP_append, countTP_cons, countTP_nil, runLoop_no_terminal,
              isTerminalPush]
            simp [buildCard, statusConfig, hst]
          | true =>
            have hmax : isMaxTurns
                ((r.events.foldl processMessage (initProc (trim msg.text))).snapshot) = true := by
              simp [isMaxTurns, hst, herr, hcs]
            rw [if_pos (by simp [hmax])]
            cases hrep : r.continueReply with
            | false =>
              rw [if_neg (by simp)]
              simp only [countTP_append, countTP_cons, countTP_nil, runLoop_no_terminal,
                isTerminalPush]
              simp [buildCard, buildContinueCard, statusConfig, hst]
            | true =>
              rw [if_pos rfl]
              have hrmt : roundMaxTurns r = true := by
                unfold roundMaxTurns
                rw [hthrow, hev, List.getLast?_concat]
                simp [hcs]
              have hrest : okChain rest = true := by
                rw [hrmt, hrep] at hcont
                simpa using hcont
              simp only [countTP_append, countTP_cons, countTP_nil, runLoop_no_terminal,
                isTerminalPush]
              rw [cont_terminal_once cfg msg.chatId mid rest hrest _ _ _ _ _ _
                (lookupA_insertA_self _ _ _)]
              simp [buildCard, buildContinueCard, statusConfig]

/-- Witness for C3 (amended): the spec §8 example scenario — a turn-limit
round answered *yes* followed by a normal completion round — pushes exactly
one terminal snapshot. -/
theorem terminal_push_exactly_once_witness :
    countTerminalPushes
      (executeQuery cfgEx stIdle (mkMsg ("hello" : String).data) (envMaxN 0)).2 = 1 :=
  terminal_push_exactly_once cfgEx stIdle (mkMsg ("hello" : String).data) (envMaxN 0)
    sessW 1 (by decide) (by decide) (by decide) (by decide) (by decide)

/-- Counterexample to C3 as stated: a cancelled attempt — the abort signal
observed at the first yield boundary, before the stream's result event was
processed — pushes *no* complete/error snapshot at all (the single final
push carries the accumulated non-terminal state), so a terminal snapshot is
not pushed exactly once in every case. -/
theorem terminal_push_counterexample :
    countTerminalPushes
      (executeQuery cfgEx stIdle (mkMsg ("hello" : String).data) envAbort).2 = 0 := by
  decide

/-- **C6** — While a conversation's task is suspended awaiting continuation,
the next inbound message (trimmed, compared case-insensitively) is
classified as affirmative (`yes`/`y`, resolving true), negative (`no`/`n`,
resolving false), or invalid (anything else), and an invalid reply triggers
the invalid-response prompt while the task remains suspended. -/
theorem continuation_reply_classification (cfg : Config) (st : BridgeState) (msg : Msg)
    (env : HandleEnv) (task : RunningTask) (w : WaitingRecord)
    (htask : lookupA msg.chatId st.runningTasks = some task)
    (hwait : task.waitingForContinue = some w) :
    (toLowerList (trim msg.text) = ("yes" : String).data ∨
        toLowerList (trim msg.text) = ("y" : String).data →
      handleMessage cfg st msg env = (st, [.resolveContinue true])) ∧
    (toLowerList (trim msg.text) = ("no" : String).data ∨
        toLowerList (trim msg.text) = ("n" : String).data →
      handleMessage cfg st msg env = (st, [.resolveContinue false])) ∧
    (toLowerList (trim msg.text) ≠ ("yes" : String).data →
     toLowerList (trim msg.text) ≠ ("y" : String).data →
     toLowerList (trim msg.text) ≠ ("no" : String).data →
     toLowerList (trim msg.text) ≠ ("n" : String).data →
      handleMessage cfg st msg env = (st, [.sendCard msg.chatId invalidReplyCard]) ∧
      lookupA msg.chatId (handleMessage cfg st msg env).1.runningTasks = some task ∧
      task.waitingForContinue = some w) := by
  refine ⟨?_, ?_, ?_⟩
  · intro h
    simp [handleMessage, htask, hwait, h]
  · intro h
    have hne : ¬(toLowerList (trim msg.text) = ("yes" : String).data ∨
        toLowerList (trim msg.text) = ("y" : String).data) := by
      rintro (hc | hc) <;> rcases h with h | h <;> rw [h] at hc <;> exact absurd hc (by decide)
    simp [handleMessage, htask, hwait, hne, h]
  · intro h1 h2 h3 h4
    have heq : handleMessage cfg st msg env = (st, [.sendCard msg.chatId invalidReplyCard]) := by
      simp [handleMessage, htask, hwait, h1, h2, h3, h4]
    exact ⟨heq, by rw [heq]; exact htask, hwait⟩

/-- Witness for C6 on the replies `YES`, ` no ` and `maybe` to a suspended
task. -/
theorem continuation_reply_classification_witness :
    handleMessage cfgEx stSuspended (mkMsg ("YES" : String).data) handleEnvEx
      = (stSuspended, [.resolveContinue true]) ∧
    handleMessage cfgEx stSuspended (mkMsg (" no " : String).data) handleEnvEx
      = (stSuspended, [.resolveContinue false]) ∧
    handleMessage cfgEx stSuspended (mkMsg ("maybe" : String).data) handleEnvEx
      = (stSuspended, [.sendCard 0 invalidReplyCard]) := by
  refine ⟨?_, ?_, ?_⟩
  · exact (continuation_reply_classification cfgEx stSuspended (mkMsg ("YES" : String).data)
      handleEnvEx taskWaiting waitEx (by decide) (by decide)).1 (by decide)
  · exact ((continuation_reply_classification cfgEx stSuspended (mkMsg (" no " : String).data)
      handleEnvEx taskWaiting waitEx (by decide) (by decide)).2.1 (by decide))
  · exact ((continuation_reply_classification cfgEx stSuspended (mkMsg ("maybe" : String).data)
      handleEnvEx taskWaiting waitEx (by decide) (by decide)).2.2 (by decide) (by decide)
      (by decide) (by decide)).1

/-- **C9** — While a task is suspended, command handling is unreachable:
any `/`-prefixed message (including `/stop`) is consumed by the continuation
classifier as an invalid reply (no abort, task still suspended), and the
only replies that resolve the handshake are `yes`/`y`/`no`/`n`. -/
theorem stop_unreachable_while_suspended (cfg : Config) (st : BridgeState) (msg : Msg)
    (env : HandleEnv) (task : RunningTask) (w : WaitingRecord)
    (htask : lookupA msg.chatId st.runningTasks = some task)
    (hwait : task.waitingForContinue = some w) :
    (startsWithSlash (trim msg.text) = true →
      handleMessage cfg st msg env = (st, [.sendCard msg.chatId invalidReplyCard]) ∧
      (∀ c, Effect.abortTask c ∉ (handleMessage cfg st msg env).2) ∧
      lookupA msg.chatId (handleMessage cfg st msg env).1.runningTasks = some task) ∧
    ((∃ b, (handleMessage cfg st msg env).2 = [Effect.resolveContinue b]) ↔
      (toLowerList (trim msg.text) = ("yes" : String).data ∨
       toLowerList (trim msg.text) = ("y" : String).data ∨
       toLowerList (trim msg.text) = ("no" : String).data ∨
       toLowerList (trim msg.text) = ("n" : String).data)) := by
  constructor
  · intro hs
    obtain ⟨hy, hy1, hn, hn1, _⟩ := slash_not_reply hs
    have heq : handleMessage cfg st msg env = (st, [.sendCard msg.chatId invalidReplyCard]) := by
      simp [handleMessage, htask, hwait, hy, hy1, hn, hn1]
    refine ⟨heq, ?_, by rw [heq]; exact htask⟩
    intro c
    rw [heq]
    simp
  · constructor
    · rintro ⟨b, hb⟩
      by_contra hcon
      push_neg at hcon
      obtain ⟨h1, h2, h3, h4⟩ := hcon
      have heq : handleMessage cfg st msg env = (st, [.sendCard msg.chatId invalidReplyCard]) := by
        simp [handleMessage, htask, hwait, h1, h2, h3, h4]
      rw [heq] at hb
      simp at hb
    · intro h
      rcases h with h | h | h | h
      · exact ⟨true, by simp [handleMessage, htask, hwait, h]⟩
      · exact ⟨true, by simp [handleMessage, htask, hwait, h]⟩
      · refine ⟨false, ?_⟩
        have hne : ¬(toLowerList (trim msg.text) = ("yes" : String).data ∨
            toLowerList (trim msg.text) = ("y" : String).data) := by
          rintro (hc | hc) <;> rw [h] at hc <;> exact absurd hc (by decide)
        simp [handleMessage, htask, hwait, hne, h]
      · refine ⟨false, ?_⟩
        have hne : ¬(toLowerList (trim msg.text) = ("yes" : String).data ∨
            toLowerList (trim msg.text) = ("y" : String).data) := by
          rintro (hc | hc) <;> rw [h] at hc <;> exact absurd hc (by decide)
        simp [handleMessage, htask, hwait, hne, h]

/-- Witness for C9: `/stop` sent to a suspended task yields the
invalid-reply card, not an abort. -/
theorem stop_unreachable_while_suspended_witness :
    handleMessage cfgEx stSuspended (mkMsg ("/stop" : String).data) handleEnvEx
      = (stSuspended, [.sendCard 0 invalidReplyCard]) :=
  ((stop_unreachable_while_suspended cfgEx stSuspended (mkMsg ("/stop" : String).data)
    handleEnvEx taskWaiting waitEx (by decide) (by decide)).1 (by decide)).1

/-- **C10** — A `/`-prefixed (trimmed) message is never passed as a prompt
to the backend executor: `handleMessage` never emits an executor invocation
for it and (when no continuation is pending) routes it to the command
handler; `executeQuery` independently re-checks the prefix and aborts with
an internal-error card without registering a task or opening a stream. -/
theorem commands_never_reach_executor (cfg : Config) (st : BridgeState) (msg : Msg)
    (env : HandleEnv) (qenv : QueryEnv)
    (hs : startsWithSlash (trim msg.text) = true) :
    (∀ p c sid sp, Effect.invokeExecutor p c sid sp ∉ (handleMessage cfg st msg env).2) ∧
    ((∀ task, lookupA msg.chatId st.runningTasks = some task →
        task.waitingForContinue = none) →
      handleMessage cfg st msg env = handleCommand cfg st msg env.cmd) ∧
    executeQuery cfg st msg qenv = (st, [.sendCard msg.chatId internalErrorCard]) := by
  obtain ⟨hy, hy1, hn, hn1, hftt⟩ := slash_not_reply hs
  have htail : handleMessageTail cfg st msg env = handleCommand cfg st msg env.cmd := by
    simp only [handleMessageTail]
    rw [if_neg hftt, if_pos hs]
  refine ⟨?_, ?_, ?_⟩
  · intro p c sid sp
    cases htask : lookupA msg.chatId st.runningTasks with
    | none =>
      rw [show handleMessage cfg st msg env = handleMessageTail cfg st msg env by
        simp only [handleMessage, htask]]
      rw [htail]
      exact handleCommand_no_invoke cfg st msg env.cmd p c sid sp
    | some task =>
      cases hwait : task.waitingForContinue with
      | none =>
        rw [show handleMessage cfg st msg env = handleMessageTail cfg st msg env by
          simp only [handleMessage, htask, hwait]]
        rw [htail]
        exact handleCommand_no_invoke cfg st msg env.cmd p c sid sp
      | some w =>
        have hinv : handleMessage cfg st msg env
            = (st, [.sendCard msg.chatId invalidReplyCard]) := by
          simp [handleMessage, htask, hwait, hy, hy1, hn, hn1]
        rw [hinv]
        simp
  · intro hns
    cases htask : lookupA msg.chatId st.runningTasks with
    | none =>
      rw [show handleMessage cfg st msg env = handleMessageTail cfg st msg env by
        simp only [handleMessage, htask], htail]
    | some task =>
      rw [show handleMessage cfg st msg env = handleMessageTail cfg st msg env by
        simp only [handleMessage, htask, hns task htask], htail]
  · simp [executeQuery, hs]

/-- Witness for C10 on `/help` with an idle conversation. -/
theorem commands_never_reach_executor_witness :
    handleMessage cfgEx stIdle (mkMsg ("/help" : String).data) handleEnvEx
      = handleCommand cfgEx stIdle (mkMsg ("/help" : String).data) cmdEnvEx ∧
    executeQuery cfgEx stIdle (mkMsg ("/help" : String).data) queryEnvEx
      = (stIdle, [.sendCard 0 internalErrorCard]) := by
  have h := commands_never_reach_executor cfgEx stIdle (mkMsg ("/help" : String).data)
    handleEnvEx queryEnvEx (by decide)
  exact ⟨h.2.1 (by intro task ht; simp [stIdle, lookupA] at ht), h.2.2⟩

/-- **C8** — If creation of the initial UI placeholder message fails, the
task attempt is aborted before any stream consumption: exactly one send is
attempted (no retry), no executor stream is opened, the timeout timer is
cleared and the conversation's task slot is released (the state is returned
unchanged). -/
theorem transport_failure_aborts (cfg : Config) (st : BridgeState) (msg : Msg)
    (env : QueryEnv) (s : UserSession)
    (hs : startsWithSlash (trim msg.text) = false)
    (himg : msg.imageKey = none)
    (hsess : lookupA msg.chatId st.sessions = some s)
    (htask : lookupA msg.chatId st.runningTasks = none)
    (hmid : env.initialMessageId = none) :
    executeQuery cfg st msg env =
      (st, [.setTimeoutEff,
            .sendCard msg.chatId (buildCard (initProc (trim msg.text)).snapshot),
            .clearTimeoutEff]) := by
  simp [executeQuery, hs, himg, hmid, getSession, hsess, initProc,
    eraseA_insertA_absent _ _ _ htask]

/-- Witness for C8 at a concrete failed initial send. -/
theorem transport_failure_aborts_witness :
    executeQuery cfgEx stIdle (mkMsg ("hello" : String).data)
        { now := 0, initialMessageId := none, imageDownloadOk := true, rounds := [] } =
      (stIdle, [.setTimeoutEff,
                .sendCard 0 (buildCard (initProc ("hello" : String).data).snapshot),
                .clearTimeoutEff]) :=
  transport_failure_aborts cfgEx stIdle (mkMsg ("hello" : String).data) _ sessW
    (by decide) (by decide) (by decide) (by decide) (by decide)

/-- **C1 (amended)** — While a conversation's slot is occupied, no message
ever adds an entry to the running-task map (the resulting map is a sublist
of the original); and an ordinary non-command message — one that is not the
literal `file transfer test` text, while the task is not suspended and a
working directory is set — is rejected with the busy notice. -/
theorem at_most_one_task (cfg : Config) (st : BridgeState) (msg : Msg)
    (env : HandleEnv) (task : RunningTask)
    (htask : lookupA msg.chatId st.runningTasks = some task) :
    (handleMessage cfg st msg env).1.runningTasks.Sublist st.runningTasks ∧
    (task.waitingForContinue = none →
     startsWithSlash (trim msg.text) = false →
     toLowerList (trim msg.text) ≠ ("file transfer test" : String).data →
     hasWorkingDirectory cfg st msg.chatId = true →
     handleMessage cfg st msg env = (st, [.sendCard msg.chatId busyCard])) := by
  constructor
  · cases hwait : task.waitingForContinue with
    | some w =>
      simp only [handleMessage, htask, hwait]
      split_ifs <;> exact List.Sublist.refl _
    | none =>
      simp only [handleMessage, htask, hwait, handleMessageTail, Option.isSome_some,
        if_true]
      split_ifs <;>
        first
          | exact List.Sublist.refl _
          | exact handleCommand_tasks_sublist cfg st msg env.cmd
  · intro hwait hs hftt hwd
    simp only [handleMessage, htask, hwait, handleMessageTail, Option.isSome_some,
      if_true]
    rw [if_neg hftt, if_neg (by rw [hs]; simp), if_neg (by rw [hwd]; simp)]

/-- Witness for C1 with a busy conversation receiving `run the tests`. -/
theorem at_most_one_task_witness :
    (handleMessage cfgEx stBusy (mkMsg ("run the tests" : String).data)
        handleEnvEx).1.runningTasks.Sublist stBusy.runningTasks ∧
    handleMessage cfgEx stBusy (mkMsg ("run the tests" : String).data) handleEnvEx
      = (stBusy, [.sendCard 0 busyCard]) := by
  have h := at_most_one_task cfgEx stBusy (mkMsg ("run the tests" : String).data)
    handleEnvEx taskIdle (by decide)
  exact ⟨h.1, h.2 (by decide) (by decide) (by decide) (by decide)⟩

/-- Counterexample to C1 as stated: the non-command message
`file transfer test`, arriving while the conversation's slot is occupied by
a running (non-suspended) task, is *not* rejected with the busy notice —
the bridge runs the file-transfer test instead (it still adds no task
entry). -/
theorem at_most_one_task_counterexample :
    lookupA 0 stBusy.runningTasks = some taskIdle ∧
    taskIdle.waitingForContinue = none ∧
    startsWithSlash (trim (("file transfer test" : String).data)) = false ∧
    hasWorkingDirectory cfgEx stBusy 0 = true ∧
    handleMessage cfgEx stBusy (mkMsg ("file transfer test" : String).data) handleEnvEx
      = (stBusy, [.sendFile 0 testFilePath,
                  .sendText 0 ("✅ File transfer test successful!" : String).data]) ∧
    Effect.sendCard 0 busyCard
      ∉ (handleMessage cfgEx stBusy (mkMsg ("file transfer test" : String).data)
          handleEnvEx).2 := by
  refine ⟨by decide, by decide, by decide, by decide, by decide, by decide⟩

/-! ### Helper lemmas for the continuation handshake -/

theorem countCI_nil : countContInvokes [] = 0 := rfl

theorem loopStep_no_invoke (c m : Nat) (p : ProcState) (sess : Option (List Char))
    (e : StreamEvent) (x : Effect)
    (hx : x ∈ (loopStep c m p sess e).2.1 ++ (loopStep c m p sess e).2.2.2) :
    isContInvoke x = false := by
  unfold loopStep at hx
  simp only [List.mem_append] at hx
  rcases hx with hx | hx
  · split at hx
    · split at hx
      · simp at hx
        rw [hx]
        rfl
      · simp at hx
    · simp at hx
  · split at hx
    · simp at hx
    · simp at hx
      rw [hx]
      rfl

theorem runLoop_effects_no_invoke (c m : Nat) (evs : List StreamEvent) :
    ∀ ab p sess last e, e ∈ (runLoop c m ab evs p sess last).2.2.2 →
      isContInvoke e = false := by
  induction evs with
  | nil =>
    intro ab p sess last e he
    cases ab with
    | none => simp [runLoop] at he
    | some a => simp [runLoop] at he
  | cons ev rest ih =>
    intro ab p sess last e he
    match ab with
    | none =>
      rw [runLoop] at he
      simp only [List.mem_append] at he
      rcases he with (he | he) | he
      · exact loopStep_no_invoke c m p sess ev e (List.mem_append_left _ he)
      · exact loopStep_no_invoke c m p sess ev e (List.mem_append_right _ he)
      · exact ih _ _ _ _ e he
    | some 0 =>
      rw [runLoop] at he
      simp at he
    | some (a + 1) =>
      rw [runLoop] at he
      simp only [List.mem_append] at he
      rcases he with (he | he) | he
      · exact loopStep_no_invoke c m p sess ev e (List.mem_append_left _ he)
      · exact loopStep_no_invoke c m p sess ev e (List.mem_append_right _ he)
      · exact ih _ _ _ _ e he

theorem runLoop_no_invoke_count (c m : Nat) (ab : Option Nat) (evs : List StreamEvent)
    (p : ProcState) (sess : Option (List Char)) (last : CardState) :
    countContInvokes (runLoop c m ab evs p sess last).2.2.2 = 0 := by
  unfold countContInvokes
  rw [List.length_eq_zero, List.filter_eq_nil_iff]
  intro a ha
  rw [runLoop_effects_no_invoke c m evs ab p sess last a ha]
  simp

/-- Every continuation round begins by pushing the *running* card built from
the reused aggregator state and re-invoking the executor with the fixed
continuation prompt and the session's stored resumption token. -/
theorem cont_round_head (cfg : Config) (chatId messageId : Nat) (sess : UserSession)
    (proc : ProcState) (dp : List Char) (ip : Option (List Char)) (st : BridgeState)
    (task : RunningTask) (r2 : StreamRound) (rest2 : List StreamRound)
    (htask : lookupA chatId st.runningTasks = some task) :
    ∃ tail, (continueExecution cfg chatId messageId sess proc dp ip st (r2 :: rest2)).2 =
      Effect.updateCard messageId (buildCard (contStateOf proc dp)) ::
      Effect.invokeExecutor contPrompt (sess.workingDirectory.getD [])
        sess.sessionId sess.systemPrompt :: tail := by
  simp only [continueExecution, contPrelude_some chatId messageId proc dp st task htask]
  split
  · exact ⟨_, rfl⟩
  · split
    · split
      · exact ⟨_, rfl⟩
      · exact ⟨_, rfl⟩
    · exact ⟨_, rfl⟩

/-- A chain of `n` affirmative turn-limit rounds followed by a final normal
round produces exactly `n + 1` continuation-prompt executor invocations:
the loop recurs as long as the user keeps answering yes. -/
theorem cont_invokes_count (cfg : Config) (chatId messageId : Nat) :
    ∀ (n : Nat) (sess : UserSession) (proc : ProcState) (dp : List Char)
      (ip : Option (List Char)) (st : BridgeState) (task : RunningTask),
      lookupA chatId st.runningTasks = some task →
      countContInvokes (continueExecution cfg chatId messageId sess proc dp ip st
        (List.replicate n rMax ++ [rDone])).2 = n + 1 := by
  intro n
  induction n with
  | zero =>
    intro sess proc dp ip st task htask
    have h0 : List.replicate 0 rMax ++ [rDone] = [rDone] := by simp
    rw [h0]
    simp only [continueExecution, contPrelude_some chatId messageId proc dp st task htask]
    rw [if_neg (by simp [rDone])]
    have hlast : (runLoop chatId messageId rDone.abortAt rDone.events proc sess.sessionId
        (contStateOf proc dp)).2.1
          = (processMessage proc (StreamEvent.result false none (some 4200) none)).snapshot := by
      simp [rDone, runLoop, loopStep]
    have hmax : isMaxTurns
        ((processMessage proc (StreamEvent.result false none (some 4200) none)).snapshot)
          = false := by
      simp [processMessage, isMaxTurns]
    rw [if_neg (by simp [hlast, hmax])]
    simp only [countCI_append, countCI_cons, countCI_nil, runLoop_no_invoke_count,
      isContInvoke]
    simp
  | succ k ih =>
    intro sess proc dp ip st task htask
    rw [List.replicate_succ, List.cons_append]
    simp only [continueExecution, contPrelude_some chatId messageId proc dp st task htask]
    rw [if_neg (by simp [rMax])]
    have hlast : (runLoop chatId messageId rMax.abortAt rMax.events proc sess.sessionId
        (contStateOf proc dp)).2.1
          = (processMessage proc (StreamEvent.result true none none
              (some ("error_max_turns" : String).data))).snapshot := by
      simp [rMax, runLoop, loopStep]
    have hmax : isMaxTurns
        ((processMessage proc (StreamEvent.result true none none
          (some ("error_max_turns" : String).data))).snapshot) = true := by
      simp [processMessage, isMaxTurns]
      decide
    rw [if_pos (by simp [hlast, hmax])]
    rw [if_pos (show rMax.continueReply = true from rfl)]
    simp only [countCI_append, countCI_cons, countCI_nil, runLoop_no_invoke_count,
      isContInvoke]
    rw [ih _ _ _ _ _ _ (lookupA_insertA_self _ _ _)]
    simp
    omega

/-- **C2** — A task that hits the turn-limit condition and receives an
affirmative reply hands off to `continueExecution` with the same aggregator
state and the updated session (first conjunct: the trace continues with the
continuation effects, and the stored waiting record holds the aggregator);
every continuation round re-opens an execution stream with the fixed prompt
`Please continue with the previous task.` and the session's stored
resumption token, first pushing the running card whose response text and
tool calls are the aggregator's accumulated ones (second conjunct); and the
loop recurs indefinitely: `n` affirmative turn-limit rounds produce exactly
`n + 1` continuation invocations (third conjunct). -/
theorem continuation_resume (cfg : Config) (st : BridgeState) (msg : Msg)
    (env : QueryEnv) (s : UserSession) (mid : Nat) (r : StreamRound)
    (rest : List StreamRound)
    (hs : startsWithSlash (trim msg.text) = false)
    (himg : msg.imageKey = none)
    (hsess : lookupA msg.chatId st.sessions = some s)
    (hmid : env.initialMessageId = some mid)
    (hr : env.rounds = r :: rest)
    (hab : r.abortAt = none)
    (hth : r.throwsAtEnd = none)
    (hmax : isMaxTurns (runLoop msg.chatId mid none r.events (initProc (trim msg.text))
      s.sessionId (initProc (trim msg.text)).snapshot).2.1 = true)
    (hyes : r.continueReply = true) :
    (∃ stW,
      (executeQuery cfg st msg env).2 =
        [Effect.setTimeoutEff,
         Effect.sendCard msg.chatId (buildCard (initProc (trim msg.text)).snapshot),
         Effect.invokeExecutor (trim msg.text) (s.workingDirectory.getD [])
           s.sessionId s.systemPrompt]
        ++ (runLoop msg.chatId mid none r.events (initProc (trim msg.text)) s.sessionId
              (initProc (trim msg.text)).snapshot).2.2.2
        ++ [Effect.flushUpdates, Effect.updateCard mid (buildContinueCard cfg.maxTurns)]
        ++ (continueExecution cfg msg.chatId mid
              { s with sessionId := (runLoop msg.chatId mid none r.events
                  (initProc (trim msg.text)) s.sessionId
                  (initProc (trim msg.text)).snapshot).2.2.1 }
              (runLoop msg.chatId mid none r.events (initProc (trim msg.text)) s.sessionId
                (initProc (trim msg.text)).snapshot).1
              (trim msg.text) none stW rest).2
        ++ [Effect.clearTimeoutEff] ∧
      lookupA msg.chatId stW.runningTasks = some
        { startTime := env.now
          waitingForContinue := some
            ⟨mid,
             (runLoop msg.chatId mid none r.events (initProc (trim msg.text)) s.sessionId
               (initProc (trim msg.text)).snapshot).2.1,
             (runLoop msg.chatId mid none r.events (initProc (trim msg.text)) s.sessionId
               (initProc (trim msg.text)).snapshot).1,
             trim msg.text, none⟩ }) ∧
    (∀ sess' proc' dp' ip' st' task' r2 rest2,
      lookupA msg.chatId st'.runningTasks = some task' →
      ∃ tail, (continueExecution cfg msg.chatId mid sess' proc' dp' ip' st' (r2 :: rest2)).2 =
        Effect.updateCard mid (buildCard (contStateOf proc' dp')) ::
        Effect.invokeExecutor contPrompt (sess'.workingDirectory.getD [])
          sess'.sessionId sess'.systemPrompt :: tail) ∧
    (∀ n sess' proc' dp' ip' st' task',
      lookupA msg.chatId st'.runningTasks = some task' →
      countContInvokes (continueExecution cfg msg.chatId mid sess' proc' dp' ip' st'
        (List.replicate n rMax ++ [rDone])).2 = n + 1) := by
  refine ⟨?_,
    fun sess' proc' dp' ip' st' task' r2 rest2 h =>
      cont_round_head cfg msg.chatId mid sess' proc' dp' ip' st' task' r2 rest2 h,
    fun n sess' proc' dp' ip' st' task' h =>
      cont_invokes_count cfg msg.chatId mid n sess' proc' dp' ip' st' task' h⟩
  simp only [executeQuery, hmid, hr, himg, getSession, hsess]
  rw [if_neg (by simp [hs])]
  rw [hab]
  have hconv : (initProc (trim msg.text)).snapshot =
      { status := CardStatus.thinking, userPrompt := trim msg.text, responseText := []
        toolCalls := [], costUsd := none, durationMs := none
        errorMessage := none } := rfl
  rw [← hconv]
  rw [if_neg (by simp [hth])]
  rw [if_pos hmax]
  rw [if_pos hyes]
  exact ⟨_, rfl, lookupA_insertA_self _ _ _⟩

/-- Witness for C2: two rounds (one turn-limit round answered *yes*, then a
completion round), and one affirmative chain of length 1 giving two
continuation invocations. -/
theorem continuation_resume_witness :
    countContInvokes (continueExecution cfgEx 0 1 sessW (initProc ("hi" : String).data)
      ("hi" : String).data none stSuspended (List.replicate 1 rMax ++ [rDone])).2 = 2 :=
  (continuation_resume cfgEx stIdle (mkMsg ("hi" : String).data) (envMaxN 0) sessW 1
    rMax [rDone] (by decide) (by decide) (by decide) (by decide) rfl (by decide)
    (by decide) (by decide) (by decide)).2.2 1 sessW (initProc ("hi" : String).data)
    ("hi" : String).data none stSuspended taskWaiting (by decide)

/-- **C7** — After the cancellation signal fires (observed at iteration `a`
of the stream loop, before the stream is exhausted), the loop stops at that
yield boundary: the whole trace equals the setup, the executor invocation,
the loop effects of only the first `a` events (so no further intermediate
card pushes are scheduled), and then exactly one final push carrying the
snapshot accumulated from those first `a` events. -/
theorem cancellation_stops_emission (cfg : Config) (st : BridgeState) (msg : Msg)
    (env : QueryEnv) (s : UserSession) (mid : Nat) (r : StreamRound)
    (rest : List StreamRound) (a : Nat)
    (hs : startsWithSlash (trim msg.text) = false)
    (himg : msg.imageKey = none)
    (hsess : lookupA msg.chatId st.sessions = some s)
    (hmid : env.initialMessageId = some mid)
    (hr : env.rounds = r :: rest)
    (ha : r.abortAt = some a)
    (halen : a < r.events.length)
    (hnt : statusTerminal (runLoop msg.chatId mid none (r.events.take a)
      (initProc (trim msg.text)) s.sessionId
      (initProc (trim msg.text)).snapshot).2.1.status = false) :
    (executeQuery cfg st msg env).2 =
      [Effect.setTimeoutEff,
       Effect.sendCard msg.chatId (buildCard (initProc (trim msg.text)).snapshot),
       Effect.invokeExecutor (trim msg.text) (s.workingDirectory.getD [])
         s.sessionId s.systemPrompt]
      ++ (runLoop msg.chatId mid none (r.events.take a) (initProc (trim msg.text))
            s.sessionId (initProc (trim msg.text)).snapshot).2.2.2
      ++ [Effect.flushUpdates,
          Effect.updateCard mid (buildCard
            (runLoop msg.chatId mid none (r.events.take a) (initProc (trim msg.text))
              s.sessionId (initProc (trim msg.text)).snapshot).2.1),
          Effect.sendOutputImages msg.chatId, Effect.clearTimeoutEff] := by
  simp only [statusTerminal] at hnt
  have hnterm : ¬ (runLoop msg.chatId mid none (r.events.take a)
      (initProc (trim msg.text)) s.sessionId
      (initProc (trim msg.text)).snapshot).2.1.status = CardStatus.error := by
    intro hcon
    rw [hcon] at hnt
    simp at hnt
  simp only [executeQuery, hmid, hr, himg, getSession, hsess]
  rw [if_neg (by simp [hs])]
  rw [ha, runLoop_abort]
  have hconv : (initProc (trim msg.text)).snapshot =
      { status := CardStatus.thinking, userPrompt := trim msg.text, responseText := []
        toolCalls := [], costUsd := none, durationMs := none
        errorMessage := none } := rfl
  rw [← hconv]
  rw [if_neg (by rintro ⟨h1, h2⟩; simp [loopBroke, halen] at h2)]
  rw [if_neg (by simp [isMaxTurns, hnterm])]
  simp [initProc]

/-- Witness for C7: the abort observed at the first yield boundary in a
concrete one-event stream. -/
theorem cancellation_stops_emission_witness :
    (executeQuery cfgEx stIdle (mkMsg ("hello" : String).data) envAbort).2 =
      [Effect.setTimeoutEff,
       Effect.sendCard 0 (buildCard (initProc ("hello" : String).data).snapshot),
       Effect.invokeExecutor ("hello" : String).data ("/w" : String).data none none]
      ++ (runLoop 0 1 none (rAbort.events.take 0) (initProc ("hello" : String).data)
            none (initProc ("hello" : String).data).snapshot).2.2.2
      ++ [Effect.flushUpdates,
          Effect.updateCard 1 (buildCard
            (runLoop 0 1 none (rAbort.events.take 0) (initProc ("hello" : String).data)
              none (initProc ("hello" : String).data).snapshot).2.1),
          Effect.sendOutputImages 0, Effect.clearTimeoutEff] :=
  cancellation_stops_emission cfgEx stIdle (mkMsg ("hello" : String).data) envAbort
    sessW 1 rAbort [] 0 (by decide) (by decide) (by decide) (by decide) rfl
    (by decide) (by decide) (by decide)

end FeishuCC
